import Mathlib

/-!
# Contact form and mobile menu of `script.js`

A shallow embedding of the interactive part of `src/script.js`:

* JavaScript strings are sequences of UTF-16 code units (`JSString`), so that
  `length`, `trim` and the regular expression see what the engine sees;
* the regular expression of `isValidEmail` is built from backtracking matchers
  in continuation-passing style, the way ECMA-262 defines pattern semantics;
* the page is a flat list of elements in document order; `getElementById`,
  `querySelectorAll(..).forEach`, `classList`, `style.display`, `value`,
  `textContent` and `reset()` are functions on that list;
* `showError` and `alert` write to a log kept next to the document, which is how
  "called zero times" and "exactly one notification" are observed.
-/

namespace Portfolio

/-! ## JavaScript strings -/

/-- A JavaScript string: its UTF-16 code units, in order. -/
abbrev JSString := List Nat

/-- UTF-16 code units of one Unicode scalar value. -/
def utf16 (c : Char) : List Nat :=
  if c.toNat < 0x10000 then [c.toNat]
  else [0xD800 + (c.toNat - 0x10000) / 0x400, 0xDC00 + (c.toNat - 0x10000) % 0x400]

/-- The JavaScript string denoted by a source literal. -/
def ofString (s : String) : JSString :=
  s.toList.flatMap utf16

/-- Code units that are `WhiteSpace` or `LineTerminator` in ECMA-262: the set removed by
`String.prototype.trim` and matched by `\s` in a pattern without the `u` flag. -/
def isWhiteSpace (c : Nat) : Bool :=
  c == 0x09 || c == 0x0A || c == 0x0B || c == 0x0C || c == 0x0D || c == 0x20 ||
  c == 0xA0 || c == 0x1680 || (0x2000 ≤ c && c ≤ 0x200A) ||
  c == 0x2028 || c == 0x2029 || c == 0x202F || c == 0x205F || c == 0x3000 || c == 0xFEFF

/-- The method `String.prototype.trimStart`. -/
def trimStart (s : JSString) : JSString :=
  s.dropWhile isWhiteSpace

/-- The method `String.prototype.trimEnd`. -/
def trimEnd (s : JSString) : JSString :=
  (s.reverse.dropWhile isWhiteSpace).reverse

/-- The method `String.prototype.trim`: leading and trailing white space removed. -/
def trim (s : JSString) : JSString :=
  trimEnd (trimStart s)

/-! ## Pattern matching, after ECMA-262 "Pattern Semantics"

A matcher is run at a position of the input (the index and the code units still to be
read) with a continuation that matches the rest of the pattern; it answers whether the
whole succeeds. Alternatives are tried in the order the specification prescribes, so a
greedy quantifier first takes one more character and falls back to its continuation. -/

/-- What is left of the pattern, run at an index with the unread input. -/
abbrev Continuation := Nat → JSString → Bool

/-- A compiled pattern node. -/
abbrev Matcher := Nat → JSString → Continuation → Bool

/-- The assertion `^` (no `m` flag): only at index 0. -/
def assertStart : Matcher :=
  fun i s k => i == 0 && k i s

/-- The assertion `$` (no `m` flag): only at the end of the input. -/
def assertEnd : Matcher :=
  fun i s k => s.isEmpty && k i s

/-- A character set: consumes one code unit that belongs to the set. -/
def charSet (p : Nat → Bool) : Matcher :=
  fun i s k =>
    match s with
    | [] => false
    | c :: cs => p c && k (i + 1) cs

/-- Concatenation of two pattern nodes. -/
def seq (m₁ m₂ : Matcher) : Matcher :=
  fun i s k => m₁ i s (fun j t => m₂ j t k)

/-- The greedy quantifier `*` applied to a character set. -/
def starSet (p : Nat → Bool) : Matcher
  | i, [], k => k i []
  | i, c :: cs, k => (p c && starSet p (i + 1) cs k) || k i (c :: cs)

/-- The greedy quantifier `+` applied to a character set: one, then `*`. -/
def plusSet (p : Nat → Bool) : Matcher :=
  seq (charSet p) (starSet p)

/-- The class `[^\s@]`. -/
def notSpaceOrAt (c : Nat) : Bool :=
  !(isWhiteSpace c || c == 0x40)

/-- The pattern `/^[^\s@]+@[^\s@]+\.[^\s@]+$/`. -/
def emailPattern : Matcher :=
  seq assertStart
    (seq (plusSet notSpaceOrAt)
      (seq (charSet (· == 0x40))
        (seq (plusSet notSpaceOrAt)
          (seq (charSet (· == 0x2E))
            (seq (plusSet notSpaceOrAt) assertEnd)))))

/-- The search loop of `RegExpBuiltinExec` for a pattern that is neither global nor
sticky: the matcher is tried at index `i`, then at each later index up to the end. -/
def searchFrom (m : Matcher) : Nat → JSString → Bool
  | i, [] => m i [] (fun _ _ => true)
  | i, c :: cs => m i (c :: cs) (fun _ _ => true) || searchFrom m (i + 1) cs

/-- The method `RegExp.prototype.test`. -/
def test (m : Matcher) (input : JSString) : Bool :=
  searchFrom m 0 input

/-- The function `isValidEmail(email)`: the pattern tested on the address. -/
def isValidEmail (email : JSString) : Bool :=
  test emailPattern email

/-- The three-part shape the pattern accepts: `u@v.w` with `u`, `v`, `w` non-empty and
free of white space and of `@`. -/
def EmailShape (e : JSString) : Prop :=
  ∃ u v w : JSString, e = u ++ 0x40 :: (v ++ 0x2E :: w) ∧ u ≠ [] ∧ v ≠ [] ∧ w ≠ [] ∧
    (∀ c ∈ u, notSpaceOrAt c = true) ∧ (∀ c ∈ v, notSpaceOrAt c = true) ∧
    (∀ c ∈ w, notSpaceOrAt c = true)

/-! ## The page

The markup is not part of the script, so the document is a parameter: any list of
elements in document order. Identifiers, tag names, class names and CSS keywords, which
the script only writes as literals, are Lean strings; texts that can hold user input
are `JSString`s. -/

/-- A DOM element, reduced to the properties the script reads or writes. -/
structure Element where
  /-- The `id` attribute. -/
  id : String
  /-- The local name, in lower case. -/
  tagName : String
  /-- The tokens of `classList`. -/
  classList : List String
  /-- The `value` of a form control. -/
  value : JSString
  /-- The `defaultValue` of a form control, which `reset()` restores. -/
  defaultValue : JSString
  /-- The `textContent`. -/
  textContent : JSString
  /-- The inline `style.display`. -/
  display : String
  /-- The `id` of the form owner, for a control that has one. -/
  form : Option String
  deriving DecidableEq

/-- The document: its elements in tree order. -/
abbrev Document := List Element

/-- The call `classList.contains(c)`. -/
def Element.classContains (c : String) (e : Element) : Bool :=
  e.classList.contains c

/-- The call `classList.add(c)`: the token is appended unless present. -/
def Element.classAdd (c : String) (e : Element) : Element :=
  if e.classList.contains c then e else { e with classList := e.classList ++ [c] }

/-- The call `classList.remove(c)`. -/
def Element.classRemove (c : String) (e : Element) : Element :=
  { e with classList := e.classList.filter (· != c) }

/-- The call `classList.toggle(c)`: removed when present, appended when not. -/
def Element.classToggle (c : String) (e : Element) : Element :=
  if e.classList.contains c then e.classRemove c else { e with classList := e.classList ++ [c] }

/-- Assignment to `textContent`. -/
def Element.setText (t : JSString) (e : Element) : Element :=
  { e with textContent := t }

/-- Assignment to `style.display`. -/
def Element.setDisplay (v : String) (e : Element) : Element :=
  { e with display := v }

/-- What `form.reset()` does to one control: the value goes back to the default. -/
def Element.resetValue (e : Element) : Element :=
  { e with value := e.defaultValue }

/-- The call `document.getElementById(id)`: the first element in tree order with that id. -/
def getElementById (d : Document) (id : String) : Option Element :=
  d.find? (fun e => e.id == id)

/-- A write through the reference that `getElementById(id)` returned: the first
element with that id is replaced by its image, the others stay. -/
def updateById (id : String) (f : Element → Element) : Document → Document
  | [] => []
  | e :: es => if e.id == id then f e :: es else e :: updateById id f es

/-- The loop `querySelectorAll(sel).forEach(f)`, for a selector that looks at one element. -/
def forEachMatch (sel : Element → Bool) (f : Element → Element) (d : Document) : Document :=
  d.map (fun e => if sel e then f e else e)

/-- The selector `input, textarea`. -/
def isInputOrTextarea (e : Element) : Bool :=
  e.tagName == "input" || e.tagName == "textarea"

/-- The selector `.error-message`. -/
def isErrorMessage (e : Element) : Bool :=
  e.classContains "error-message"

/-- The call `form.reset()` on the form with the given id: each control it owns is reset. -/
def resetForm (formId : String) (d : Document) : Document :=
  forEachMatch (fun e => e.form == some formId) Element.resetValue d

/-- The page together with the record of what the script showed to the user. -/
structure World where
  /-- The document. -/
  document : Document
  /-- Arguments of the calls of `showError`, oldest first. -/
  shown : List (String × JSString)
  /-- Arguments of the calls of `alert`, oldest first. -/
  alerts : List JSString
  deriving DecidableEq

/-- The function `showError(fieldId, message)`: the field gets the class `error` and the
error container the message, each if the page has it; the call is logged. -/
def showError (fieldId : String) (message : JSString) (w : World) : World :=
  let field := getElementById w.document fieldId
  let errorElement := getElementById w.document (fieldId ++ "Error")
  let d := w.document
  let d := match field with
    | some _ => updateById fieldId (Element.classAdd "error") d
    | none => d
  let d := match errorElement with
    | some _ => updateById (fieldId ++ "Error") (Element.setText message) d
    | none => d
  { w with document := d, shown := w.shown ++ [(fieldId, message)] }

/-- The function `clearErrors()`: the class `error` goes from every input and textarea,
then the text of every `.error-message` is emptied. -/
def clearErrors (w : World) : World :=
  let d := forEachMatch isInputOrTextarea (Element.classRemove "error") w.document
  let d := forEachMatch isErrorMessage (Element.setText []) d
  { w with document := d }

/-- The call `alert(message)`: the message is logged. -/
def alert (message : JSString) (w : World) : World :=
  { w with alerts := w.alerts ++ [message] }

/-- The body of `if (isValid) { ... }` in the submit listener: hide the form, show the
success message if there is one, alert, reset the form. -/
def onValid (name : JSString) (w : World) : World :=
  let w := { w with document := updateById "contactForm" (Element.setDisplay "none") w.document }
  let w :=
    match getElementById w.document "successMessage" with
    | some _ =>
      { w with document := updateById "successMessage" (Element.setDisplay "block") w.document }
    | none => w
  let w := alert (ofString "Thanks for reaching out, " ++ name ++
    ofString "! I\x27ll get back to you soon.") w
  { w with document := resetForm "contactForm" w.document }

/-- How a run of the submit listener ends. -/
inductive Completion where
  /-- The listener ran to its end; `isValid` is the final value of its local variable. -/
  | normal (isValid : Bool) (w : World)
  /-- A property was read from `null`: the run stops with the page as it then is. -/
  | typeError (w : World)
  deriving DecidableEq

/-- The listener of `submit` on `contactForm` (`event.preventDefault()` changes nothing
that is modelled). -/
def submitHandler (w : World) : Completion :=
  let w := clearErrors w
  match getElementById w.document "name" with
  | none => .typeError w
  | some nameField =>
  match getElementById w.document "email" with
  | none => .typeError w
  | some emailField =>
  match getElementById w.document "message" with
  | none => .typeError w
  | some messageField =>
    let name := trim nameField.value
    let email := trim emailField.value
    let message := trim messageField.value
    let s : World × Bool := (w, true)
    let s :=
      if name = [] then
        (showError "name" (ofString "Please enter your name") s.1, false)
      else if name.length < 2 then
        (showError "name" (ofString "Name must be at least 2 characters") s.1, false)
      else s
    let s :=
      if email = [] then
        (showError "email" (ofString "Please enter your email address") s.1, false)
      else if !isValidEmail email then
        (showError "email" (ofString "Please enter a valid email address") s.1, false)
      else s
    let s :=
      if message = [] then
        (showError "message" (ofString "Please enter a message") s.1, false)
      else if message.length < 10 then
        (showError "message" (ofString "Message must be at least 10 characters") s.1, false)
      else s
    if s.2 then
      .normal true (onValid name s.1)
    else
      .normal false s.1

/-- The page a run ended with. -/
def Completion.world : Completion → World
  | .normal _ w => w
  | .typeError w => w

/-- The final `isValid` of a run that reached its end. -/
def Completion.isValid? : Completion → Option Bool
  | .normal v _ => some v
  | .typeError _ => none

/-- The error entries of one submission: the calls of `showError` made by the run
that started on `w` and ended as `c`. -/
def newEntries (w : World) (c : Completion) : List (String × JSString) :=
  c.world.shown.drop w.shown.length

/-- The notifications of one submission: the calls of `alert` made by the run. -/
def newAlerts (w : World) (c : Completion) : List JSString :=
  c.world.alerts.drop w.alerts.length

/-- The test `el.classList.contains(c)` for the element with the given id. -/
def hasClass (d : Document) (id c : String) : Bool :=
  match getElementById d id with
  | some e => e.classContains c
  | none => false

/-- The error annotation of a field: whether the field carries the class `error`, and
the text of its error container (if the page has one). -/
def fieldMarks (d : Document) (fieldId : String) : Bool × Option JSString :=
  (hasClass d fieldId "error", (getElementById d (fieldId ++ "Error")).map (·.textContent))

/-- The markup the annotations rely on, for one field holding `value`: the field is
matched by `input, textarea`, and its error container exists and is matched by
`.error-message`. -/
def fieldMarkup (d : Document) (fieldId : String) (value : JSString) : Bool :=
  (match getElementById d fieldId with
    | some f => isInputOrTextarea f && f.value == value
    | none => false) &&
  (match getElementById d (fieldId ++ "Error") with
    | some b => isErrorMessage b
    | none => false)

/-- The markup of the contact form with the three fields holding the given values. -/
def formMarkup (d : Document) (name email message : JSString) : Bool :=
  fieldMarkup d "name" name && fieldMarkup d "email" email && fieldMarkup d "message" message

/-- The user edits a control: its value changes, nothing else does. -/
def userTypes (fieldId : String) (value : JSString) (w : World) : World :=
  { w with document := updateById fieldId (fun e => { e with value := value }) w.document }

/-- What the script never changes before a submission is valid: all of an element
but its classes and its text. -/
def Element.controlState (e : Element) :
    String × String × JSString × JSString × String × Option String :=
  (e.id, e.tagName, e.value, e.defaultValue, e.display, e.form)

/-- The annotation that a list of error entries calls for on a field: marked with the
message of its entry, or unmarked with an empty text when it has no entry. -/
def marksFor (entries : List (String × JSString)) (fieldId : String) :
    Bool × Option JSString :=
  match entries.find? (fun x => x.1 == fieldId) with
  | some x => (true, some x.2)
  | none => (false, some [])

/-- The outcome of a submission: the final validity and the error entries. -/
def outcome (w : World) : Option Bool × List (String × JSString) :=
  ((submitHandler w).isValid?, newEntries w (submitHandler w))

/-! ## The mobile menu -/

/-- Where a click lands, as far as the listeners of the menu can tell. -/
inductive Target where
  /-- On the menu button. -/
  | menuBtn
  /-- On a `.nav-link` inside the navigation list. -/
  | navLink
  /-- Anywhere else. -/
  | other
  deriving DecidableEq

/-- A click event. -/
structure Click where
  /-- The element that carries a listener on the way up, if any. -/
  target : Target
  /-- Whether `event.target.closest('.nav')` finds an element. -/
  insideNav : Bool
  deriving DecidableEq

/-- The listener of `click` on the menu button. -/
def menuBtnListener (d : Document) : Document :=
  let d := updateById "navLinks" (Element.classToggle "active") d
  updateById "mobileMenuBtn" (Element.classToggle "active") d

/-- The listener of `click` on each navigation link. -/
def navLinkListener (d : Document) : Document :=
  let d := updateById "navLinks" (Element.classRemove "active") d
  updateById "mobileMenuBtn" (Element.classRemove "active") d

/-- The listener of `click` on the document. -/
def documentListener (ev : Click) (d : Document) : Document :=
  if !ev.insideNav && hasClass d "navLinks" "active" then
    let d := updateById "navLinks" (Element.classRemove "active") d
    updateById "mobileMenuBtn" (Element.classRemove "active") d
  else d

/-- One click: the listeners exist only when both elements were found at load time;
the listener on the target runs first and the one on the document last, as the event
bubbles. -/
def click (ev : Click) (d : Document) : Document :=
  match getElementById d "mobileMenuBtn", getElementById d "navLinks" with
  | some _, some _ =>
    let d :=
      match ev.target with
      | .menuBtn => menuBtnListener d
      | .navLink => navLinkListener d
      | .other => d
    documentListener ev d
  | _, _ => d

/-- A run of clicks, oldest first. -/
def clicks (evs : List Click) (d : Document) : Document :=
  evs.foldl (fun d ev => click ev d) d

/-- A click on the menu button, which sits inside `.nav`. -/
def buttonClick : Click :=
  { target := .menuBtn, insideNav := true }

/-- A click on a navigation link. -/
def linkClick (insideNav : Bool) : Click :=
  { target := .navLink, insideNav := insideNav }

/-- A click outside `.nav`, on nothing that carries a listener of the menu. -/
def outsideClick : Click :=
  { target := .other, insideNav := false }

/-- The part of an address before its first `@`. -/
def beforeAt (e : JSString) : JSString :=
  e.takeWhile (· != 0x40)

/-- The part of an address after its first `@`. -/
def afterAt (e : JSString) : JSString :=
  (e.dropWhile (· != 0x40)).tail

/-! ## A concrete page

The elements that section 6 of the specification lists, in one possible markup; the
theorems hold for every document, this one serves to run the listeners on inputs. -/

/-- An element with nothing set but its id and tag. -/
def blank (id tagName : String) : Element :=
  { id := id, tagName := tagName, classList := [], value := [], defaultValue := [],
    textContent := [], display := "", form := none }

/-- A text control of the contact form holding `value`. -/
def control (id tagName : String) (value : JSString) : Element :=
  { blank id tagName with value := value, form := some "contactForm" }

/-- The error container of a field. -/
def errorBox (id : String) : Element :=
  { blank id "span" with classList := ["error-message"] }

/-- The contact page with the three fields filled in. -/
def samplePage (name email message : JSString) : World :=
  { document :=
      [ { blank "mobileMenuBtn" "button" with classList := ["mobile-menu-btn"] },
        { blank "navLinks" "ul" with classList := ["nav-links"] },
        blank "contactForm" "form",
        control "name" "input" name, errorBox "nameError",
        control "email" "input" email, errorBox "emailError",
        control "message" "textarea" message, errorBox "messageError",
        { blank "successMessage" "div" with display := "none" } ],
    shown := [],
    alerts := [] }

/-- The sample page after a failed submission of `("J", "bad-email", "short")`, once the
user has typed new values into the three fields: the annotations of the failed
submission are still on it. -/
def markedPage (name email message : JSString) : World :=
  userTypes "message" message (userTypes "email" email (userTypes "name" name
    (submitHandler (samplePage (ofString "J") (ofString "bad-email")
      (ofString "short"))).world))

/-- A text control of the contact form whose markup gives it an initial value (the
attribute `value="..."`): it holds `value` now and `defaultValue` after a reset. -/
def prefilledControl (id tagName : String) (value defaultValue : JSString) : Element :=
  { control id tagName value with defaultValue := defaultValue }

/-- The contact page whose `name` input has the initial value "Default Name", with the
three fields filled in. -/
def prefilledPage (name email message : JSString) : World :=
  { document :=
      [ { blank "mobileMenuBtn" "button" with classList := ["mobile-menu-btn"] },
        { blank "navLinks" "ul" with classList := ["nav-links"] },
        blank "contactForm" "form",
        prefilledControl "name" "input" name (ofString "Default Name"), errorBox "nameError",
        control "email" "input" email, errorBox "emailError",
        control "message" "textarea" message, errorBox "messageError",
        { blank "successMessage" "div" with display := "none" } ],
    shown := [],
    alerts := [] }

/-! ## The rule set of the specification

The second description of the validator, written from section 4.1 of the
specification; the theorems compare the listener with it. -/

namespace Spec

/-- The rule for `name`: empty, or shorter than 2. -/
def nameError (name : JSString) : Option JSString :=
  if name = [] then some (ofString "Please enter your name")
  else if name.length < 2 then some (ofString "Name must be at least 2 characters")
  else none

/-- The rule for `email`: empty, or not empty and not matching the pattern. -/
def emailError (email : JSString) : Option JSString :=
  if email = [] then some (ofString "Please enter your email address")
  else if isValidEmail email = false then some (ofString "Please enter a valid email address")
  else none

/-- The rule for `message`: empty, or shorter than 10. -/
def messageError (message : JSString) : Option JSString :=
  if message = [] then some (ofString "Please enter a message")
  else if message.length < 10 then some (ofString "Message must be at least 10 characters")
  else none

/-- The error entries of a validation result: one per failing field, in field order. -/
def errors (name email message : JSString) : List (String × JSString) :=
  (nameError name).toList.map (fun t => ("name", t)) ++
  (emailError email).toList.map (fun t => ("email", t)) ++
  (messageError message).toList.map (fun t => ("message", t))

/-- The six rules, as the specification enumerates them. -/
inductive Rule where
  | nameEmpty
  | nameShort
  | emailEmpty
  | emailFormat
  | messageEmpty
  | messageShort
  deriving DecidableEq

/-- All rules, in the order of section 4.1. -/
def Rule.all : List Rule :=
  [.nameEmpty, .nameShort, .emailEmpty, .emailFormat, .messageEmpty, .messageShort]

/-- The field a rule belongs to. -/
def Rule.field : Rule → String
  | .nameEmpty => "name"
  | .nameShort => "name"
  | .emailEmpty => "email"
  | .emailFormat => "email"
  | .messageEmpty => "message"
  | .messageShort => "message"

/-- The message section 4.1 attaches to a rule. -/
def Rule.text : Rule → JSString
  | .nameEmpty => ofString "Please enter your name"
  | .nameShort => ofString "Name must be at least 2 characters"
  | .emailEmpty => ofString "Please enter your email address"
  | .emailFormat => ofString "Please enter a valid email address"
  | .messageEmpty => ofString "Please enter a message"
  | .messageShort => ofString "Message must be at least 10 characters"

/-- Whether an input violates a rule, each condition read on its own (an empty name
is also shorter than 2). -/
def Rule.violated (name email message : JSString) : Rule → Bool
  | .nameEmpty => name = []
  | .nameShort => name.length < 2
  | .emailEmpty => email = []
  | .emailFormat => email ≠ [] ∧ isValidEmail email = false
  | .messageEmpty => message = []
  | .messageShort => message.length < 10

/-- Whether a rule is the one that applies to its field, the two conditions of a
field read as alternatives (the length rule is for a field that is not empty). -/
def Rule.applies (name email message : JSString) : Rule → Bool
  | .nameEmpty => name = []
  | .nameShort => name ≠ [] ∧ name.length < 2
  | .emailEmpty => email = []
  | .emailFormat => email ≠ [] ∧ isValidEmail email = false
  | .messageEmpty => message = []
  | .messageShort => message ≠ [] ∧ message.length < 10

end Spec

/-- The calls of `showError` for a list of entries, in order. -/
def showAll (entries : List (String × JSString)) (w : World) : World :=
  entries.foldl (fun w entry => showError entry.1 entry.2 w) w

/-- What `clearErrors` does to one element. -/
def Element.cleared (e : Element) : Element :=
  let e := if isInputOrTextarea e then e.classRemove "error" else e
  if isErrorMessage e then e.setText [] else e

/-! ## Lemmas on the matchers -/

theorem starSet_iff (p : Nat → Bool) (s : JSString) (i : Nat) (k : Continuation) :
    starSet p i s k = true ↔
      ∃ u t, s = u ++ t ∧ (∀ c ∈ u, p c = true) ∧ k (i + u.length) t = true := by
  induction s generalizing i with
  | nil =>
    simp only [starSet]
    constructor
    · intro h
      exact ⟨[], [], rfl, by simp, by simpa using h⟩
    · rintro ⟨u, t, hs, -, hk⟩
      have hu : u = [] := by
        cases u with
        | nil => rfl
        | cons a u => simp at hs
      subst hu
      have ht : t = [] := by simpa using hs.symm
      subst ht
      simpa using hk
  | cons c cs ih =>
    simp only [starSet, Bool.or_eq_true, Bool.and_eq_true, ih]
    constructor
    · rintro (⟨hc, u, t, hs, hu, hk⟩ | hk)
      · refine ⟨c :: u, t, by simp [hs], ?_, ?_⟩
        · intro x hx
          rcases List.mem_cons.mp hx with rfl | hx
          · exact hc
          · exact hu x hx
        · simpa [Nat.add_assoc, Nat.add_comm 1] using hk
      · exact ⟨[], c :: cs, rfl, by simp, by simpa using hk⟩
    · rintro ⟨u, t, hs, hu, hk⟩
      cases u with
      | nil =>
        right
        have : t = c :: cs := by simpa using hs.symm
        subst this
        simpa using hk
      | cons a u =>
        left
        simp only [List.cons_append, List.cons.injEq] at hs
        obtain ⟨rfl, rfl⟩ := hs
        refine ⟨hu _ (List.mem_cons_self _ _), u, t, rfl, ?_, ?_⟩
        · intro x hx
          exact hu x (List.mem_cons_of_mem _ hx)
        · simpa [Nat.add_assoc, Nat.add_comm 1] using hk

theorem plusSet_iff (p : Nat → Bool) (s : JSString) (i : Nat) (k : Continuation) :
    plusSet p i s k = true ↔
      ∃ u t, s = u ++ t ∧ u ≠ [] ∧ (∀ c ∈ u, p c = true) ∧ k (i + u.length) t = true := by
  cases s with
  | nil =>
    simp only [plusSet, seq, charSet]
    constructor
    · intro h
      cases h
    · rintro ⟨u, t, hs, hne, -, -⟩
      cases u with
      | nil => exact absurd rfl hne
      | cons a u => simp at hs
  | cons c cs =>
    simp only [plusSet, seq, charSet, Bool.and_eq_true, starSet_iff]
    constructor
    · rintro ⟨hc, u, t, hs, hu, hk⟩
      refine ⟨c :: u, t, by simp [hs], by simp, ?_, ?_⟩
      · intro x hx
        rcases List.mem_cons.mp hx with rfl | hx
        · exact hc
        · exact hu x hx
      · simpa [Nat.add_assoc, Nat.add_comm 1] using hk
    · rintro ⟨u, t, hs, hne, hu, hk⟩
      cases u with
      | nil => exact absurd rfl hne
      | cons a u =>
        simp only [List.cons_append, List.cons.injEq] at hs
        obtain ⟨rfl, rfl⟩ := hs
        refine ⟨hu _ (List.mem_cons_self _ _), u, t, rfl, ?_, ?_⟩
        · intro x hx
          exact hu x (List.mem_cons_of_mem _ hx)
        · simpa [Nat.add_assoc, Nat.add_comm 1] using hk

theorem charSet_eq_iff (a : Nat) (s : JSString) (i : Nat) (k : Continuation) :
    charSet (· == a) i s k = true ↔ ∃ t, s = a :: t ∧ k (i + 1) t = true := by
  cases s with
  | nil => simp [charSet]
  | cons c cs =>
    simp only [charSet, Bool.and_eq_true, beq_iff_eq, List.cons.injEq]
    constructor
    · rintro ⟨rfl, hk⟩
      exact ⟨cs, ⟨rfl, rfl⟩, hk⟩
    · rintro ⟨t, ⟨rfl, rfl⟩, hk⟩
      exact ⟨rfl, hk⟩

theorem emailPattern_iff (e : JSString) (i : Nat) :
    emailPattern i e (fun _ _ => true) = true ↔ i = 0 ∧ EmailShape e := by
  simp only [emailPattern, seq, assertStart, assertEnd, Bool.and_eq_true, beq_iff_eq,
    plusSet_iff, charSet_eq_iff, List.isEmpty_iff, and_true, EmailShape]
  constructor
  · rintro ⟨hi, u, t, rfl, hu, hpu, t₁, rfl, v, t₂, rfl, hv, hpv, t₃, rfl, w, t₄, rfl, hw, hpw,
      rfl⟩
    exact ⟨hi, u, v, w, by simp, hu, hv, hw, hpu, hpv, hpw⟩
  · rintro ⟨hi, u, v, w, rfl, hu, hv, hw, hpu, hpv, hpw⟩
    exact ⟨hi, u, _, rfl, hu, hpu, _, rfl, v, _, rfl, hv, hpv, _, rfl, w, [], by simp, hw, hpw,
      rfl⟩

theorem searchFrom_emailPattern_succ (e : JSString) (i : Nat) :
    searchFrom emailPattern (i + 1) e = false := by
  induction e generalizing i with
  | nil =>
    simp only [searchFrom]
    cases h : emailPattern (i + 1) [] (fun _ _ => true)
    · rfl
    · exact absurd ((emailPattern_iff _ _).mp h).1 (by simp)
  | cons c cs ih =>
    simp only [searchFrom, ih, Bool.or_false]
    cases h : emailPattern (i + 1) (c :: cs) (fun _ _ => true)
    · rfl
    · exact absurd ((emailPattern_iff _ _).mp h).1 (by simp)

theorem isValidEmail_iff_shape (e : JSString) : isValidEmail e = true ↔ EmailShape e := by
  unfold isValidEmail test
  cases e with
  | nil => simp [searchFrom, emailPattern_iff]
  | cons c cs =>
    simp [searchFrom, searchFrom_emailPattern_succ, emailPattern_iff]

/-! ## Lemmas on the document -/

@[simp]
theorem Element.classAdd_id (c : String) (e : Element) : (e.classAdd c).id = e.id := by
  unfold Element.classAdd
  split <;> rfl

@[simp]
theorem Element.classRemove_id (c : String) (e : Element) :
    (e.classRemove c).id = e.id := rfl

@[simp]
theorem Element.classToggle_id (c : String) (e : Element) :
    (e.classToggle c).id = e.id := by
  unfold Element.classToggle
  split <;> rfl

@[simp]
theorem Element.setText_id (t : JSString) (e : Element) : (e.setText t).id = e.id := rfl

@[simp]
theorem Element.setDisplay_id (v : String) (e : Element) :
    (e.setDisplay v).id = e.id := rfl

@[simp]
theorem Element.resetValue_id (e : Element) : e.resetValue.id = e.id := rfl

theorem getElementById_nil (id : String) : getElementById [] id = none := rfl

theorem getElementById_cons (e : Element) (es : Document) (id : String) :
    getElementById (e :: es) id = if e.id = id then some e else getElementById es id := by
  unfold getElementById
  by_cases h : e.id = id <;> simp [List.find?_cons, h]

theorem getElementById_updateById (f : Element → Element) (hf : ∀ e, (f e).id = e.id)
    (d : Document) (id id' : String) :
    getElementById (updateById id f d) id' =
      if id' = id then (getElementById d id).map f else getElementById d id' := by
  induction d with
  | nil => simp [updateById, getElementById_nil]
  | cons e es ih =>
    by_cases h : e.id = id
    · by_cases h' : id' = id
      · simp [updateById, h, h', hf, getElementById_cons]
      · have h'' : ¬ id = id' := fun hh => h' hh.symm
        simp [updateById, h, h', h'', hf, getElementById_cons]
    · by_cases h' : e.id = id'
      · have h'' : ¬ id' = id := fun hh => h (h'.trans hh)
        simp [updateById, h, h', h'', getElementById_cons]
      · simp [updateById, h, h', getElementById_cons, ih]

theorem getElementById_forEachMatch (sel : Element → Bool) (f : Element → Element)
    (hf : ∀ e, (f e).id = e.id) (d : Document) (id : String) :
    getElementById (forEachMatch sel f d) id =
      (getElementById d id).map (fun e => if sel e then f e else e) := by
  induction d with
  | nil => simp [forEachMatch, getElementById_nil]
  | cons e es ih =>
    unfold forEachMatch at ih ⊢
    by_cases h : e.id = id
    · by_cases hs : sel e = true <;> simp [getElementById_cons, h, hs, hf]
    · by_cases hs : sel e = true <;> simp [getElementById_cons, h, hs, hf, ih]

theorem updateById_of_none (f : Element → Element) (d : Document) (id : String)
    (h : getElementById d id = none) : updateById id f d = d := by
  induction d with
  | nil => rfl
  | cons e es ih =>
    rw [getElementById_cons] at h
    by_cases he : e.id = id
    · simp [he] at h
    · simp only [he, if_false] at h
      simp [updateById, he, ih h]

theorem map_updateById {β : Type} (π : Element → β) (f : Element → Element)
    (hf : ∀ e, π (f e) = π e) (d : Document) (id : String) :
    (updateById id f d).map π = d.map π := by
  induction d with
  | nil => rfl
  | cons e es ih =>
    by_cases he : e.id = id <;> simp [updateById, he, hf, ih]

theorem map_forEachMatch {β : Type} (π : Element → β) (sel : Element → Bool)
    (f : Element → Element) (hf : ∀ e, π (f e) = π e) (d : Document) :
    (forEachMatch sel f d).map π = d.map π := by
  induction d with
  | nil => rfl
  | cons e es ih =>
    unfold forEachMatch at ih ⊢
    by_cases hs : sel e = true <;> simp [hs, hf, ih]

theorem showError_document (fieldId : String) (message : JSString) (w : World) :
    (showError fieldId message w).document =
      updateById (fieldId ++ "Error") (Element.setText message)
        (updateById fieldId (Element.classAdd "error") w.document) := by
  unfold showError
  cases h₁ : getElementById w.document fieldId with
  | none =>
    cases h₂ : getElementById w.document (fieldId ++ "Error") <;>
      simp [updateById_of_none, h₁, h₂]
  | some a =>
    cases h₂ : getElementById w.document (fieldId ++ "Error") with
    | some b => simp
    | none =>
      have h₃ : getElementById (updateById fieldId (Element.classAdd "error") w.document)
          (fieldId ++ "Error") = none := by
        rw [getElementById_updateById _ (by simp)]
        split
        · next heq =>
          rw [heq, h₁] at h₂
          cases h₂
        · exact h₂
      simp [updateById_of_none, h₃]

@[simp]
theorem showError_shown (fieldId : String) (message : JSString) (w : World) :
    (showError fieldId message w).shown = w.shown ++ [(fieldId, message)] := rfl

@[simp]
theorem showError_alerts (fieldId : String) (message : JSString) (w : World) :
    (showError fieldId message w).alerts = w.alerts := rfl

@[simp]
theorem clearErrors_shown (w : World) : (clearErrors w).shown = w.shown := rfl

@[simp]
theorem clearErrors_alerts (w : World) : (clearErrors w).alerts = w.alerts := rfl

theorem getElementById_clearErrors (w : World) (id : String) :
    getElementById (clearErrors w).document id =
      (getElementById w.document id).map Element.cleared := by
  simp only [clearErrors]
  rw [getElementById_forEachMatch _ _ (by simp), getElementById_forEachMatch _ _ (by simp)]
  cases getElementById w.document id <;> rfl

@[simp]
theorem Element.cleared_value (e : Element) : e.cleared.value = e.value := by
  simp only [Element.cleared]
  split_ifs <;> rfl

/-! ## The submit listener against the rule set -/

theorem submitHandler_eq (w : World) (n e m : Element)
    (hn : getElementById w.document "name" = some n)
    (he : getElementById w.document "email" = some e)
    (hm : getElementById w.document "message" = some m) :
    submitHandler w =
      if Spec.errors (trim n.value) (trim e.value) (trim m.value) = [] then
        .normal true (onValid (trim n.value) (clearErrors w))
      else
        .normal false
          (showAll (Spec.errors (trim n.value) (trim e.value) (trim m.value)) (clearErrors w)) := by
  simp only [submitHandler, getElementById_clearErrors, hn, he, hm, Option.map,
    Element.cleared_value]
  by_cases h₁ : trim n.value = [] <;> by_cases h₂ : (trim n.value).length < 2 <;>
    by_cases h₃ : trim e.value = [] <;> by_cases h₄ : isValidEmail (trim e.value) = true <;>
    by_cases h₅ : trim m.value = [] <;> by_cases h₆ : (trim m.value).length < 10 <;>
    simp [Spec.errors, Spec.nameError, Spec.emailError, Spec.messageError, showAll,
      h₁, h₂, h₃, h₄, h₅, h₆]

theorem showAll_shown (entries : List (String × JSString)) (w : World) :
    (showAll entries w).shown = w.shown ++ entries := by
  induction entries generalizing w with
  | nil => simp [showAll]
  | cons x xs ih =>
    have := ih (showError x.1 x.2 w)
    simp only [showAll, List.foldl_cons] at this ⊢
    simp [this]

theorem showAll_alerts (entries : List (String × JSString)) (w : World) :
    (showAll entries w).alerts = w.alerts := by
  induction entries generalizing w with
  | nil => simp [showAll]
  | cons x xs ih =>
    have := ih (showError x.1 x.2 w)
    simp only [showAll, List.foldl_cons] at this ⊢
    simp [this]

theorem onValid_shown (name : JSString) (w : World) : (onValid name w).shown = w.shown := by
  unfold onValid
  dsimp only
  split <;> rfl

theorem onValid_alerts (name : JSString) (w : World) :
    (onValid name w).alerts = w.alerts ++
      [ofString "Thanks for reaching out, " ++ name ++
        ofString "! I\x27ll get back to you soon."] := by
  unfold onValid
  dsimp only
  split <;> rfl

/-- What a run on a page with the three fields leaves in the logs. -/
theorem submitHandler_logs (w : World) (n e m : Element)
    (hn : getElementById w.document "name" = some n)
    (he : getElementById w.document "email" = some e)
    (hm : getElementById w.document "message" = some m) :
    (submitHandler w).isValid? =
        some (decide (Spec.errors (trim n.value) (trim e.value) (trim m.value) = [])) ∧
      newEntries w (submitHandler w) =
        Spec.errors (trim n.value) (trim e.value) (trim m.value) ∧
      newAlerts w (submitHandler w) =
        (if Spec.errors (trim n.value) (trim e.value) (trim m.value) = [] then
          [ofString "Thanks for reaching out, " ++ trim n.value ++
            ofString "! I\x27ll get back to you soon."]
        else []) ∧
      (submitHandler w).world.shown = w.shown ++ newEntries w (submitHandler w) ∧
      (submitHandler w).world.alerts = w.alerts ++ newAlerts w (submitHandler w) := by
  rw [submitHandler_eq w n e m hn he hm]
  by_cases h : Spec.errors (trim n.value) (trim e.value) (trim m.value) = []
  · simp [h, Completion.isValid?, Completion.world, newEntries, newAlerts, onValid_shown,
      onValid_alerts]
  · simp [h, Completion.isValid?, Completion.world, newEntries, newAlerts, showAll_shown,
      showAll_alerts]

/-! ## The validator: validity and error entries -/

/-- C1: on a page whose three fields hold values that trim to `name`, `email`, `message`,
all non-empty, with `name` of length at least 2, `message` of length at least 10 and
`email` in the language of the pattern (`u@v.w` with `u`, `v`, `w` non-empty and free of
white space and `@`), the submit listener ends with `isValid = true` and calls
`showError` zero times. -/
theorem valid_input_passes (w : World) (n e m : Element) (name email message : JSString)
    (hn : getElementById w.document "name" = some n)
    (he : getElementById w.document "email" = some e)
    (hm : getElementById w.document "message" = some m)
    (hname : trim n.value = name) (hemail : trim e.value = email)
    (hmessage : trim m.value = message)
    (h₁ : name ≠ []) (h₂ : email ≠ []) (h₃ : message ≠ [])
    (h₄ : 2 ≤ name.length) (h₅ : 10 ≤ message.length) (hshape : EmailShape email) :
    (submitHandler w).isValid? = some true ∧ newEntries w (submitHandler w) = [] ∧
      (submitHandler w).world.shown = w.shown := by
  obtain ⟨hv, hent, -, hshown, -⟩ := submitHandler_logs w n e m hn he hm
  rw [hname, hemail, hmessage] at hv hent
  have h₆ : isValidEmail email = true := (isValidEmail_iff_shape email).mpr hshape
  have herr : Spec.errors name email message = [] := by
    simp [Spec.errors, Spec.nameError, Spec.emailError, Spec.messageError, h₁, h₂, h₃, h₆,
      Nat.not_lt.mpr h₄, Nat.not_lt.mpr h₅]
  rw [herr] at hv hent
  refine ⟨by simpa using hv, hent, ?_⟩
  rw [hshown, hent, List.append_nil]

/-- C1, run on the two inputs the specification names. -/
theorem valid_input_passes_witness :
    ((submitHandler (samplePage (ofString "Jo") (ofString "jo@x.com")
          (ofString "Hello there!"))).isValid? = some true ∧
      newEntries (samplePage (ofString "Jo") (ofString "jo@x.com") (ofString "Hello there!"))
        (submitHandler (samplePage (ofString "Jo") (ofString "jo@x.com")
          (ofString "Hello there!"))) = [] ∧
      (submitHandler (samplePage (ofString "Jo") (ofString "jo@x.com")
          (ofString "Hello there!"))).world.shown = []) ∧
    ((submitHandler (samplePage (ofString "Jordan") (ofString "jordan@test.org")
          (ofString "This is a sufficiently long message."))).isValid? = some true ∧
      newEntries (samplePage (ofString "Jordan") (ofString "jordan@test.org")
          (ofString "This is a sufficiently long message."))
        (submitHandler (samplePage (ofString "Jordan") (ofString "jordan@test.org")
          (ofString "This is a sufficiently long message."))) = [] ∧
      (submitHandler (samplePage (ofString "Jordan") (ofString "jordan@test.org")
          (ofString "This is a sufficiently long message."))).world.shown = []) :=
  ⟨valid_input_passes
      (samplePage (ofString "Jo") (ofString "jo@x.com") (ofString "Hello there!"))
      (control "name" "input" (ofString "Jo")) (control "email" "input" (ofString "jo@x.com"))
      (control "message" "textarea" (ofString "Hello there!"))
      (ofString "Jo") (ofString "jo@x.com") (ofString "Hello there!")
      (by decide) (by decide) (by decide) (by decide) (by decide) (by decide)
      (by decide) (by decide) (by decide) (by decide) (by decide)
      ⟨ofString "jo", ofString "x", ofString "com", by decide, by decide, by decide,
        by decide, by decide, by decide, by decide⟩,
    valid_input_passes
      (samplePage (ofString "Jordan") (ofString "jordan@test.org")
        (ofString "This is a sufficiently long message."))
      (control "name" "input" (ofString "Jordan"))
      (control "email" "input" (ofString "jordan@test.org"))
      (control "message" "textarea" (ofString "This is a sufficiently long message."))
      (ofString "Jordan") (ofString "jordan@test.org")
      (ofString "This is a sufficiently long message.")
      (by decide) (by decide) (by decide) (by decide) (by decide) (by decide)
      (by decide) (by decide) (by decide) (by decide) (by decide)
      ⟨ofString "jordan", ofString "test", ofString "org", by decide, by decide, by decide,
        by decide, by decide, by decide, by decide⟩⟩

/-- C2: when the trimmed input violates exactly one of the six rules (each condition
read on its own, or the two conditions of a field read as alternatives), the listener
ends with `isValid = false` and its only call of `showError` carries the field of that
rule and the message section 4.1 attaches to it. -/
theorem single_violation_single_entry (w : World) (n e m : Element)
    (name email message : JSString) (r : Spec.Rule)
    (hn : getElementById w.document "name" = some n)
    (he : getElementById w.document "email" = some e)
    (hm : getElementById w.document "message" = some m)
    (hname : trim n.value = name) (hemail : trim e.value = email)
    (hmessage : trim m.value = message)
    (hr : Spec.Rule.all.filter (Spec.Rule.violated name email message) = [r] ∨
      Spec.Rule.all.filter (Spec.Rule.applies name email message) = [r]) :
    (submitHandler w).isValid? = some false ∧
      newEntries w (submitHandler w) = [(r.field, r.text)] := by
  obtain ⟨hv, hent, -, -, -⟩ := submitHandler_logs w n e m hn he hm
  rw [hname, hemail, hmessage] at hv hent
  have herr : Spec.errors name email message = [(r.field, r.text)] := by
    by_cases c₁ : name = [] <;> by_cases c₂ : name.length < 2 <;>
      by_cases c₃ : email = [] <;> by_cases c₄ : isValidEmail email = true <;>
      by_cases c₅ : message = [] <;> by_cases c₆ : message.length < 10 <;>
      simp [Spec.Rule.all, Spec.Rule.violated, Spec.Rule.applies, List.filter,
        c₁, c₂, c₃, c₄, c₅, c₆] at hr <;>
      (subst hr
       simp [Spec.errors, Spec.nameError, Spec.emailError, Spec.messageError,
         Spec.Rule.field, Spec.Rule.text, c₁, c₂, c₃, c₄, c₅, c₆])
  rw [herr] at hv hent
  exact ⟨by simpa using hv, hent⟩

/-- C2, run on a name of one character, on an empty name and on an address without a
dot after the `@`. -/
theorem single_violation_single_entry_witness :
    ((submitHandler (samplePage (ofString "J") (ofString "jo@x.com")
          (ofString "Hello there!"))).isValid? = some false ∧
      newEntries (samplePage (ofString "J") (ofString "jo@x.com") (ofString "Hello there!"))
        (submitHandler (samplePage (ofString "J") (ofString "jo@x.com")
          (ofString "Hello there!"))) =
        [("name", ofString "Name must be at least 2 characters")]) ∧
    ((submitHandler (samplePage (ofString "  ") (ofString "jo@x.com")
          (ofString "Hello there!"))).isValid? = some false ∧
      newEntries (samplePage (ofString "  ") (ofString "jo@x.com") (ofString "Hello there!"))
        (submitHandler (samplePage (ofString "  ") (ofString "jo@x.com")
          (ofString "Hello there!"))) =
        [("name", ofString "Please enter your name")]) ∧
    ((submitHandler (samplePage (ofString "Jo") (ofString "jo@x")
          (ofString "Hello there!"))).isValid? = some false ∧
      newEntries (samplePage (ofString "Jo") (ofString "jo@x") (ofString "Hello there!"))
        (submitHandler (samplePage (ofString "Jo") (ofString "jo@x")
          (ofString "Hello there!"))) =
        [("email", ofString "Please enter a valid email address")]) :=
  ⟨single_violation_single_entry
      (samplePage (ofString "J") (ofString "jo@x.com") (ofString "Hello there!"))
      (control "name" "input" (ofString "J")) (control "email" "input" (ofString "jo@x.com"))
      (control "message" "textarea" (ofString "Hello there!"))
      (ofString "J") (ofString "jo@x.com") (ofString "Hello there!") .nameShort
      (by decide) (by decide) (by decide) (by decide) (by decide) (by decide)
      (Or.inl (by decide)),
    single_violation_single_entry
      (samplePage (ofString "  ") (ofString "jo@x.com") (ofString "Hello there!"))
      (control "name" "input" (ofString "  ")) (control "email" "input" (ofString "jo@x.com"))
      (control "message" "textarea" (ofString "Hello there!"))
      [] (ofString "jo@x.com") (ofString "Hello there!") .nameEmpty
      (by decide) (by decide) (by decide) (by decide) (by decide) (by decide)
      (Or.inr (by decide)),
    single_violation_single_entry
      (samplePage (ofString "Jo") (ofString "jo@x") (ofString "Hello there!"))
      (control "name" "input" (ofString "Jo")) (control "email" "input" (ofString "jo@x"))
      (control "message" "textarea" (ofString "Hello there!"))
      (ofString "Jo") (ofString "jo@x") (ofString "Hello there!") .emailFormat
      (by decide) (by decide) (by decide) (by decide) (by decide) (by decide)
      (Or.inl (by decide))⟩

/-- C3: on every page with the three fields, the entries of a submission are those of
the rule set, field by field: exactly one entry for a field that violates a rule of its
own, none for a field that violates none, whatever the other fields do; no entry names
another field, and `isValid` ends true exactly when there is no entry. -/
theorem errors_collected (w : World) (n e m : Element) (name email message : JSString)
    (hn : getElementById w.document "name" = some n)
    (he : getElementById w.document "email" = some e)
    (hm : getElementById w.document "message" = some m)
    (hname : trim n.value = name) (hemail : trim e.value = email)
    (hmessage : trim m.value = message) :
    ((newEntries w (submitHandler w)).filter (fun x => x.1 = "name")).length =
        (if name = [] ∨ name.length < 2 then 1 else 0) ∧
      ((newEntries w (submitHandler w)).filter (fun x => x.1 = "email")).length =
        (if email = [] ∨ isValidEmail email = false then 1 else 0) ∧
      ((newEntries w (submitHandler w)).filter (fun x => x.1 = "message")).length =
        (if message = [] ∨ message.length < 10 then 1 else 0) ∧
      (∀ x ∈ newEntries w (submitHandler w), x.1 = "name" ∨ x.1 = "email" ∨ x.1 = "message") ∧
      newEntries w (submitHandler w) = Spec.errors name email message ∧
      (submitHandler w).isValid? = some (decide (newEntries w (submitHandler w) = [])) := by
  obtain ⟨hv, hent, -, -, -⟩ := submitHandler_logs w n e m hn he hm
  rw [hname, hemail, hmessage] at hv hent
  rw [hent]
  refine ⟨?_, ?_, ?_, ?_, rfl, hv⟩
  · by_cases c₁ : name = [] <;> by_cases c₂ : name.length < 2 <;>
      by_cases c₃ : email = [] <;> by_cases c₄ : isValidEmail email = true <;>
      by_cases c₅ : message = [] <;> by_cases c₆ : message.length < 10 <;>
      simp [Spec.errors, Spec.nameError, Spec.emailError, Spec.messageError, List.filter,
        c₁, c₂, c₃, c₄, c₅, c₆]
  · by_cases c₁ : name = [] <;> by_cases c₂ : name.length < 2 <;>
      by_cases c₃ : email = [] <;> by_cases c₄ : isValidEmail email = true <;>
      by_cases c₅ : message = [] <;> by_cases c₆ : message.length < 10 <;>
      simp [Spec.errors, Spec.nameError, Spec.emailError, Spec.messageError, List.filter,
        c₁, c₂, c₃, c₄, c₅, c₆]
  · by_cases c₁ : name = [] <;> by_cases c₂ : name.length < 2 <;>
      by_cases c₃ : email = [] <;> by_cases c₄ : isValidEmail email = true <;>
      by_cases c₅ : message = [] <;> by_cases c₆ : message.length < 10 <;>
      simp [Spec.errors, Spec.nameError, Spec.emailError, Spec.messageError, List.filter,
        c₁, c₂, c₃, c₄, c₅, c₆]
  · by_cases c₁ : name = [] <;> by_cases c₂ : name.length < 2 <;>
      by_cases c₃ : email = [] <;> by_cases c₄ : isValidEmail email = true <;>
      by_cases c₅ : message = [] <;> by_cases c₆ : message.length < 10 <;>
      simp [Spec.errors, Spec.nameError, Spec.emailError, Spec.messageError,
        c₁, c₂, c₃, c₄, c₅, c₆]

/-- C3, run on the two inputs the specification names: three empty fields, and
`("J", "bad-email", "short")`. -/
theorem errors_collected_witness :
    newEntries (samplePage [] [] []) (submitHandler (samplePage [] [] [])) =
        [("name", ofString "Please enter your name"),
         ("email", ofString "Please enter your email address"),
         ("message", ofString "Please enter a message")] ∧
      newEntries (samplePage (ofString "J") (ofString "bad-email") (ofString "short"))
        (submitHandler (samplePage (ofString "J") (ofString "bad-email") (ofString "short"))) =
        [("name", ofString "Name must be at least 2 characters"),
         ("email", ofString "Please enter a valid email address"),
         ("message", ofString "Message must be at least 10 characters")] :=
  ⟨(errors_collected (samplePage [] [] [])
      (control "name" "input" []) (control "email" "input" []) (control "message" "textarea" [])
      [] [] [] (by decide) (by decide) (by decide) (by decide) (by decide)
      (by decide)).2.2.2.2.1.trans (by decide),
   (errors_collected (samplePage (ofString "J") (ofString "bad-email") (ofString "short"))
      (control "name" "input" (ofString "J")) (control "email" "input" (ofString "bad-email"))
      (control "message" "textarea" (ofString "short"))
      (ofString "J") (ofString "bad-email") (ofString "short")
      (by decide) (by decide) (by decide) (by decide) (by decide)
      (by decide)).2.2.2.2.1.trans (by decide)⟩

/-- C4: the length boundaries. A trimmed name of length 2 or more gets no entry for
`name`, one of length exactly 1 gets the entry "Name must be at least 2 characters"; a
trimmed message of length 10 or more gets no entry for `message`, a non-empty one of
length 9 or less gets the entry "Message must be at least 10 characters". -/
theorem length_boundaries (w : World) (n e m : Element) (name email message : JSString)
    (hn : getElementById w.document "name" = some n)
    (he : getElementById w.document "email" = some e)
    (hm : getElementById w.document "message" = some m)
    (hname : trim n.value = name) (hemail : trim e.value = email)
    (hmessage : trim m.value = message) :
    (2 ≤ name.length →
        (newEntries w (submitHandler w)).filter (fun x => x.1 = "name") = []) ∧
      (name.length = 1 →
        (newEntries w (submitHandler w)).filter (fun x => x.1 = "name") =
          [("name", ofString "Name must be at least 2 characters")]) ∧
      (10 ≤ message.length →
        (newEntries w (submitHandler w)).filter (fun x => x.1 = "message") = []) ∧
      (message ≠ [] → message.length ≤ 9 →
        (newEntries w (submitHandler w)).filter (fun x => x.1 = "message") =
          [("message", ofString "Message must be at least 10 characters")]) := by
  obtain ⟨-, hent, -, -, -⟩ := submitHandler_logs w n e m hn he hm
  rw [hname, hemail, hmessage] at hent
  rw [hent]
  refine ⟨?_, ?_, ?_, ?_⟩
  · intro h
    have c₁ : name ≠ [] := by
      rintro rfl
      simp at h
    have c₂ : ¬ name.length < 2 := Nat.not_lt.mpr h
    by_cases c₃ : email = [] <;> by_cases c₄ : isValidEmail email = true <;>
      by_cases c₅ : message = [] <;> by_cases c₆ : message.length < 10 <;>
      simp [Spec.errors, Spec.nameError, Spec.emailError, Spec.messageError, List.filter,
        c₁, c₂, c₃, c₄, c₅, c₆]
  · intro h
    have c₁ : name ≠ [] := by
      rintro rfl
      simp at h
    by_cases c₃ : email = [] <;> by_cases c₄ : isValidEmail email = true <;>
      by_cases c₅ : message = [] <;> by_cases c₆ : message.length < 10 <;>
      simp [Spec.errors, Spec.nameError, Spec.emailError, Spec.messageError, List.filter,
        c₁, h, c₃, c₄, c₅, c₆]
  · intro h
    have c₅ : message ≠ [] := by
      rintro rfl
      simp at h
    have c₆ : ¬ message.length < 10 := Nat.not_lt.mpr h
    by_cases c₁ : name = [] <;> by_cases c₂ : name.length < 2 <;>
      by_cases c₃ : email = [] <;> by_cases c₄ : isValidEmail email = true <;>
      simp [Spec.errors, Spec.nameError, Spec.emailError, Spec.messageError, List.filter,
        c₁, c₂, c₃, c₄, c₅, c₆]
  · intro c₅ h
    have c₆ : message.length < 10 := Nat.lt_succ_of_le h
    by_cases c₁ : name = [] <;> by_cases c₂ : name.length < 2 <;>
      by_cases c₃ : email = [] <;> by_cases c₄ : isValidEmail email = true <;>
      simp [Spec.errors, Spec.nameError, Spec.emailError, Spec.messageError, List.filter,
        c₁, c₂, c₃, c₄, c₅, c₆]

/-- C4, run at the four boundary lengths: a name of 2 and of 1 code units, a message
of 10 and of 9. -/
theorem length_boundaries_witness :
    (newEntries (samplePage (ofString "Jo") [] []) (submitHandler
        (samplePage (ofString "Jo") [] []))).filter (fun x => x.1 = "name") = [] ∧
      (newEntries (samplePage (ofString "J") [] []) (submitHandler
        (samplePage (ofString "J") [] []))).filter (fun x => x.1 = "name") =
          [("name", ofString "Name must be at least 2 characters")] ∧
      (newEntries (samplePage [] [] (ofString "0123456789")) (submitHandler
        (samplePage [] [] (ofString "0123456789")))).filter (fun x => x.1 = "message") = [] ∧
      (newEntries (samplePage [] [] (ofString "012345678")) (submitHandler
        (samplePage [] [] (ofString "012345678")))).filter (fun x => x.1 = "message") =
          [("message", ofString "Message must be at least 10 characters")] :=
  ⟨(length_boundaries (samplePage (ofString "Jo") [] [])
      (control "name" "input" (ofString "Jo")) (control "email" "input" [])
      (control "message" "textarea" []) (ofString "Jo") [] []
      (by decide) (by decide) (by decide) (by decide) (by decide) (by decide)).1 (by decide),
   (length_boundaries (samplePage (ofString "J") [] [])
      (control "name" "input" (ofString "J")) (control "email" "input" [])
      (control "message" "textarea" []) (ofString "J") [] []
      (by decide) (by decide) (by decide) (by decide) (by decide) (by decide)).2.1 (by decide),
   (length_boundaries (samplePage [] [] (ofString "0123456789"))
      (control "name" "input" []) (control "email" "input" [])
      (control "message" "textarea" (ofString "0123456789")) [] [] (ofString "0123456789")
      (by decide) (by decide) (by decide) (by decide) (by decide) (by decide)).2.2.1
      (by decide),
   (length_boundaries (samplePage [] [] (ofString "012345678"))
      (control "name" "input" []) (control "email" "input" [])
      (control "message" "textarea" (ofString "012345678")) [] [] (ofString "012345678")
      (by decide) (by decide) (by decide) (by decide) (by decide) (by decide)).2.2.2
      (by decide) (by decide)⟩

/-- C8: on every page with the three fields, a submission that ends valid issues
exactly one notification, "Thanks for reaching out, " followed by the trimmed name and
"! I'll get back to you soon."; one that ends invalid issues none. -/
theorem notification_on_success (w : World) (n e m : Element) (name : JSString)
    (hn : getElementById w.document "name" = some n)
    (he : getElementById w.document "email" = some e)
    (hm : getElementById w.document "message" = some m)
    (hname : trim n.value = name) :
    ((submitHandler w).isValid? = some true →
        newAlerts w (submitHandler w) =
          [ofString "Thanks for reaching out, " ++ name ++
            ofString "! I\x27ll get back to you soon."]) ∧
      ((submitHandler w).isValid? = some false → newAlerts w (submitHandler w) = []) ∧
      ((submitHandler w).isValid? = some true ∨ (submitHandler w).isValid? = some false) ∧
      (submitHandler w).world.alerts = w.alerts ++ newAlerts w (submitHandler w) := by
  obtain ⟨hv, -, hal, -, halerts⟩ := submitHandler_logs w n e m hn he hm
  rw [hname] at hv hal
  by_cases h : Spec.errors name (trim e.value) (trim m.value) = []
  · simp [h] at hv hal
    simp [hv, hal, halerts]
  · simp [h] at hv hal
    simp [hv, hal, halerts]

/-- C8, run on a valid and on an invalid submission. -/
theorem notification_on_success_witness :
    newAlerts (samplePage (ofString " Jo ") (ofString "jo@x.com") (ofString "Hello there!"))
        (submitHandler (samplePage (ofString " Jo ") (ofString "jo@x.com")
          (ofString "Hello there!"))) =
        [ofString "Thanks for reaching out, Jo! I\x27ll get back to you soon."] ∧
      newAlerts (samplePage (ofString "J") (ofString "jo@x.com") (ofString "Hello there!"))
        (submitHandler (samplePage (ofString "J") (ofString "jo@x.com")
          (ofString "Hello there!"))) = [] :=
  ⟨((notification_on_success
      (samplePage (ofString " Jo ") (ofString "jo@x.com") (ofString "Hello there!"))
      (control "name" "input" (ofString " Jo ")) (control "email" "input" (ofString "jo@x.com"))
      (control "message" "textarea" (ofString "Hello there!")) (ofString "Jo")
      (by decide) (by decide) (by decide) (by decide)).1 (by decide)).trans (by decide),
   (notification_on_success
      (samplePage (ofString "J") (ofString "jo@x.com") (ofString "Hello there!"))
      (control "name" "input" (ofString "J")) (control "email" "input" (ofString "jo@x.com"))
      (control "message" "textarea" (ofString "Hello there!")) (ofString "J")
      (by decide) (by decide) (by decide) (by decide)).2.1 (by decide)⟩

/-! ## Lemmas on the document after a submission -/

theorem Element.classAdd_classList (c : String) (e : Element) :
    (e.classAdd c).classList = if c ∈ e.classList then e.classList else e.classList ++ [c] := by
  unfold Element.classAdd
  by_cases h : c ∈ e.classList <;> simp [h]

@[simp]
theorem Element.classAdd_classContains (c c' : String) (e : Element) :
    (e.classAdd c).classContains c' = (e.classContains c' || c' == c) := by
  unfold Element.classContains
  rw [Element.classAdd_classList]
  by_cases h : c ∈ e.classList
  · by_cases hc : c' = c
    · subst hc
      simp [h]
    · simp [h, hc]
  · by_cases hc : c' = c
    · subst hc
      simp [h]
    · simp [h, hc]

@[simp]
theorem Element.classRemove_classContains (c c' : String) (e : Element) :
    (e.classRemove c).classContains c' = (e.classContains c' && c' != c) := by
  unfold Element.classRemove Element.classContains
  by_cases hc : c' = c
  · subst hc
    simp
  · by_cases h : c' ∈ e.classList
    · simp [h, hc, List.mem_filter]
    · simp [h, hc, List.mem_filter]

@[simp]
theorem Element.setText_classContains (t : JSString) (c : String) (e : Element) :
    (e.setText t).classContains c = e.classContains c := rfl

@[simp]
theorem Element.setDisplay_classContains (v c : String) (e : Element) :
    (e.setDisplay v).classContains c = e.classContains c := rfl

@[simp]
theorem Element.resetValue_classContains (c : String) (e : Element) :
    e.resetValue.classContains c = e.classContains c := rfl

@[simp]
theorem Element.setText_textContent (t : JSString) (e : Element) :
    (e.setText t).textContent = t := rfl

@[simp]
theorem Element.setDisplay_textContent (v : String) (e : Element) :
    (e.setDisplay v).textContent = e.textContent := rfl

@[simp]
theorem Element.resetValue_textContent (e : Element) :
    e.resetValue.textContent = e.textContent := rfl

@[simp]
theorem Element.classAdd_textContent (c : String) (e : Element) :
    (e.classAdd c).textContent = e.textContent := by
  unfold Element.classAdd
  split <;> rfl

@[simp]
theorem Element.classRemove_textContent (c : String) (e : Element) :
    (e.classRemove c).textContent = e.textContent := rfl

theorem Element.cleared_classContains (c : String) (e : Element) :
    e.cleared.classContains c =
      if isInputOrTextarea e = true then (e.classContains c && c != "error")
      else e.classContains c := by
  simp only [Element.cleared]
  split_ifs <;> simp

theorem Element.cleared_textContent (e : Element) :
    e.cleared.textContent = if isErrorMessage e = true then [] else e.textContent := by
  simp only [Element.cleared, isErrorMessage]
  split_ifs <;> simp_all

theorem onValid_document (name : JSString) (w : World) :
    (onValid name w).document =
      resetForm "contactForm"
        (updateById "successMessage" (Element.setDisplay "block")
          (updateById "contactForm" (Element.setDisplay "none") w.document)) := by
  unfold onValid
  dsimp only
  split
  · rfl
  · next h =>
    simp only [alert]
    rw [updateById_of_none _ _ _ h]

theorem getElementById_resetForm (formId : String) (d : Document) (id : String) :
    getElementById (resetForm formId d) id =
      (getElementById d id).map
        (fun e => if (e.form == some formId) = true then e.resetValue else e) := by
  unfold resetForm
  rw [getElementById_forEachMatch _ _ (by simp)]

/-- The markup hypothesis, taken apart. -/
theorem fieldMarkup_iff (d : Document) (fieldId : String) (value : JSString) :
    fieldMarkup d fieldId value = true ↔
      (∃ f, getElementById d fieldId = some f ∧ isInputOrTextarea f = true ∧ f.value = value) ∧
      (∃ b, getElementById d (fieldId ++ "Error") = some b ∧ isErrorMessage b = true) := by
  unfold fieldMarkup
  cases getElementById d fieldId <;> cases getElementById d (fieldId ++ "Error") <;> simp

/-- The annotations a submission leaves on a page with the markup of the form. -/
theorem marks_after_submit (w : World) (rn re rm : JSString)
    (h : formMarkup w.document rn re rm = true) :
    fieldMarks (submitHandler w).world.document "name" =
        ((Spec.nameError (trim rn)).isSome, some ((Spec.nameError (trim rn)).getD [])) ∧
      fieldMarks (submitHandler w).world.document "email" =
        ((Spec.emailError (trim re)).isSome, some ((Spec.emailError (trim re)).getD [])) ∧
      fieldMarks (submitHandler w).world.document "message" =
        ((Spec.messageError (trim rm)).isSome,
          some ((Spec.messageError (trim rm)).getD [])) := by
  simp only [formMarkup, Bool.and_eq_true, fieldMarkup_iff] at h
  obtain ⟨⟨⟨⟨n, hn, hn', rfl⟩, bn, hbn, hbn'⟩, ⟨e, he, he', rfl⟩, be, hbe, hbe'⟩,
    ⟨m, hm, hm', rfl⟩, bm, hbm, hbm'⟩ := h
  simp only [String.reduceAppend] at hbn hbe hbm
  rw [submitHandler_eq w n e m hn he hm]
  by_cases c₁ : trim n.value = [] <;> by_cases c₂ : (trim n.value).length < 2 <;>
    by_cases c₃ : trim e.value = [] <;> by_cases c₄ : isValidEmail (trim e.value) = true <;>
    by_cases c₅ : trim m.value = [] <;> by_cases c₆ : (trim m.value).length < 10 <;>
    simp [Spec.errors, Spec.nameError, Spec.emailError, Spec.messageError, showAll,
      Completion.world, fieldMarks, hasClass, onValid_document, getElementById_resetForm,
      showError_document, getElementById_updateById, getElementById_clearErrors,
      Element.cleared_classContains, Element.cleared_textContent,
      hn, he, hm, hbn, hbe, hbm, hn', he', hm', hbn', hbe', hbm',
      c₁, c₂, c₃, c₄, c₅, c₆, apply_ite (Element.classContains "error"),
      apply_ite Element.textContent]

theorem marksFor_errors (name email message : JSString) :
    marksFor (Spec.errors name email message) "name" =
        ((Spec.nameError name).isSome, some ((Spec.nameError name).getD [])) ∧
      marksFor (Spec.errors name email message) "email" =
        ((Spec.emailError email).isSome, some ((Spec.emailError email).getD [])) ∧
      marksFor (Spec.errors name email message) "message" =
        ((Spec.messageError message).isSome, some ((Spec.messageError message).getD [])) := by
  cases h₁ : Spec.nameError name <;> cases h₂ : Spec.emailError email <;>
    cases h₃ : Spec.messageError message <;>
    simp [marksFor, Spec.errors, h₁, h₂, h₃, List.find?_cons]

theorem formMarkup_fields (d : Document) (rn re rm : JSString)
    (h : formMarkup d rn re rm = true) :
    ∃ n e m, getElementById d "name" = some n ∧ getElementById d "email" = some e ∧
      getElementById d "message" = some m ∧ n.value = rn ∧ e.value = re ∧ m.value = rm := by
  simp only [formMarkup, Bool.and_eq_true, fieldMarkup_iff] at h
  obtain ⟨⟨⟨⟨n, hn, -, hn'⟩, -⟩, ⟨e, he, -, he'⟩, -⟩, ⟨m, hm, -, hm'⟩, -⟩ := h
  exact ⟨n, e, m, hn, he, hm, hn', he', hm'⟩

/-! ## The validator: what is left on the page -/

/-- C5: on pages with the markup of the form (fields matched by `input, textarea`, error
containers matched by `.error-message`), whatever annotations an earlier submission
left, the annotations after a submission are those its own error entries call for: a
field with an entry carries the class `error` and its container the message, a field
without one carries no marker and an empty text. Validity, entries and annotations are
the same for two pages whose fields hold the same values. -/
theorem submission_independent (w₁ w₂ : World) (rn re rm : JSString)
    (h₁ : formMarkup w₁.document rn re rm = true)
    (h₂ : formMarkup w₂.document rn re rm = true) :
    (∀ f, f = "name" ∨ f = "email" ∨ f = "message" →
        fieldMarks (submitHandler w₁).world.document f =
          marksFor (newEntries w₁ (submitHandler w₁)) f) ∧
      (submitHandler w₁).isValid? = (submitHandler w₂).isValid? ∧
      newEntries w₁ (submitHandler w₁) = newEntries w₂ (submitHandler w₂) ∧
      (∀ f, f = "name" ∨ f = "email" ∨ f = "message" →
        fieldMarks (submitHandler w₁).world.document f =
          fieldMarks (submitHandler w₂).world.document f) := by
  obtain ⟨n₁, e₁, m₁, hn₁, he₁, hm₁, rfl, rfl, rfl⟩ := formMarkup_fields _ _ _ _ h₁
  obtain ⟨n₂, e₂, m₂, hn₂, he₂, hm₂, vn, ve, vm⟩ := formMarkup_fields _ _ _ _ h₂
  obtain ⟨hv₁, hent₁, -, -, -⟩ := submitHandler_logs w₁ n₁ e₁ m₁ hn₁ he₁ hm₁
  obtain ⟨hv₂, hent₂, -, -, -⟩ := submitHandler_logs w₂ n₂ e₂ m₂ hn₂ he₂ hm₂
  rw [vn, ve, vm] at hv₂ hent₂
  obtain ⟨a₁, a₂, a₃⟩ := marks_after_submit w₁ _ _ _ h₁
  obtain ⟨b₁, b₂, b₃⟩ := marks_after_submit w₂ _ _ _ h₂
  obtain ⟨s₁, s₂, s₃⟩ := marksFor_errors (trim n₁.value) (trim e₁.value) (trim m₁.value)
  refine ⟨?_, hv₁.trans hv₂.symm, hent₁.trans hent₂.symm, ?_⟩
  · rintro f (rfl | rfl | rfl)
    · rw [hent₁, a₁, s₁]
    · rw [hent₁, a₂, s₂]
    · rw [hent₁, a₃, s₃]
  · rintro f (rfl | rfl | rfl)
    · rw [a₁, b₁]
    · rw [a₂, b₂]
    · rw [a₃, b₃]

/-- C5, run on a page that a failed submission has marked and on a fresh page, both
holding `("Jo", "jo@x.com", "Hello there!")`: the marked page carries the old marker and
message before the submission, and none after it, like the fresh page. -/
theorem submission_independent_witness :
    fieldMarks (markedPage (ofString "Jo") (ofString "jo@x.com")
        (ofString "Hello there!")).document "name" =
        (true, some (ofString "Name must be at least 2 characters")) ∧
      fieldMarks (submitHandler (markedPage (ofString "Jo") (ofString "jo@x.com")
        (ofString "Hello there!"))).world.document "name" = (false, some []) ∧
      (submitHandler (markedPage (ofString "Jo") (ofString "jo@x.com")
        (ofString "Hello there!"))).isValid? = some true ∧
      fieldMarks (submitHandler (markedPage (ofString "Jo") (ofString "jo@x.com")
        (ofString "Hello there!"))).world.document "email" =
        fieldMarks (submitHandler (samplePage (ofString "Jo") (ofString "jo@x.com")
          (ofString "Hello there!"))).world.document "email" :=
  ⟨by decide,
   ((submission_independent
      (markedPage (ofString "Jo") (ofString "jo@x.com") (ofString "Hello there!"))
      (samplePage (ofString "Jo") (ofString "jo@x.com") (ofString "Hello there!"))
      (ofString "Jo") (ofString "jo@x.com") (ofString "Hello there!")
      (by decide) (by decide)).1 "name" (Or.inl rfl)).trans (by decide),
   (submission_independent
      (markedPage (ofString "Jo") (ofString "jo@x.com") (ofString "Hello there!"))
      (samplePage (ofString "Jo") (ofString "jo@x.com") (ofString "Hello there!"))
      (ofString "Jo") (ofString "jo@x.com") (ofString "Hello there!")
      (by decide) (by decide)).2.1.trans (by decide),
   (submission_independent
      (markedPage (ofString "Jo") (ofString "jo@x.com") (ofString "Hello there!"))
      (samplePage (ofString "Jo") (ofString "jo@x.com") (ofString "Hello there!"))
      (ofString "Jo") (ofString "jo@x.com") (ofString "Hello there!")
      (by decide) (by decide)).2.2.2 "email" (Or.inr (Or.inl rfl))⟩

theorem map_controlState_showError (fieldId : String) (message : JSString) (w : World) :
    (showError fieldId message w).document.map Element.controlState =
      w.document.map Element.controlState := by
  have hadd : ∀ x : Element, (x.classAdd "error").controlState = x.controlState := by
    intro x
    unfold Element.classAdd
    split <;> rfl
  rw [showError_document,
    map_updateById Element.controlState (Element.setText message) (fun _ => rfl),
    map_updateById Element.controlState (Element.classAdd "error") hadd]

theorem map_controlState_showAll (entries : List (String × JSString)) (w : World) :
    (showAll entries w).document.map Element.controlState =
      w.document.map Element.controlState := by
  induction entries generalizing w with
  | nil => rfl
  | cons x xs ih =>
    have := ih (showError x.1 x.2 w)
    simp only [showAll, List.foldl_cons] at this ⊢
    rw [this, map_controlState_showError]

theorem map_controlState_clearErrors (w : World) :
    (clearErrors w).document.map Element.controlState =
      w.document.map Element.controlState := by
  simp only [clearErrors]
  rw [map_forEachMatch Element.controlState _ (Element.setText []) (fun _ => rfl),
    map_forEachMatch Element.controlState _ (Element.classRemove "error") (fun _ => rfl)]

theorem Element.cleared_display (e : Element) : e.cleared.display = e.display := by
  simp only [Element.cleared]
  split_ifs <;> rfl

theorem resetForm_mem (formId : String) (d : Document) (x : Element)
    (hx : x ∈ resetForm formId d) (hf : x.form = some formId) : x.value = x.defaultValue := by
  unfold resetForm forEachMatch at hx
  obtain ⟨y, -, rfl⟩ := List.mem_map.mp hx
  by_cases hy : (y.form == some formId) = true
  · simp [hy, Element.resetValue]
  · simp only [hy] at hf ⊢
    simp at hy
    exact absurd hf hy

/-- C6, as amended: on every page with the three fields, a submission with at least one
error entry leaves the display, the value (and id, tag, default value, form owner) of
every element as they were; a submission with no entry sets the display of the form to
`none` and that of the success container, when the page has one, to `block`, and resets
the controls of the form: each holds its default value again, which is the empty string
only for a control whose markup gives no initial value. -/
theorem display_state (w : World) (n e m : Element)
    (hn : getElementById w.document "name" = some n)
    (he : getElementById w.document "email" = some e)
    (hm : getElementById w.document "message" = some m) :
    (newEntries w (submitHandler w) ≠ [] →
        (submitHandler w).world.document.map Element.controlState =
          w.document.map Element.controlState) ∧
      (newEntries w (submitHandler w) = [] →
        (getElementById (submitHandler w).world.document "contactForm").map (·.display) =
            (getElementById w.document "contactForm").map (fun _ => "none") ∧
          (getElementById (submitHandler w).world.document "successMessage").map (·.display) =
            (getElementById w.document "successMessage").map (fun _ => "block") ∧
          (∀ x ∈ (submitHandler w).world.document, x.form = some "contactForm" →
            x.value = x.defaultValue ∧ (x.defaultValue = [] → x.value = [])) ∧
          (submitHandler w).world.document.map (fun x => (x.id, x.form, x.defaultValue)) =
            w.document.map (fun x => (x.id, x.form, x.defaultValue))) := by
  obtain ⟨-, hent, -, -, -⟩ := submitHandler_logs w n e m hn he hm
  rw [hent, submitHandler_eq w n e m hn he hm]
  constructor
  · intro h
    simp only [h, if_false, Completion.world]
    rw [map_controlState_showAll, map_controlState_clearErrors]
  · intro h
    simp only [h, if_true, Completion.world, onValid_document]
    refine ⟨?_, ?_, ?_, ?_⟩
    · simp only [getElementById_resetForm,
        getElementById_updateById _ (Element.setDisplay_id "none"),
        getElementById_updateById _ (Element.setDisplay_id "block"),
        getElementById_clearErrors]
      cases getElementById w.document "contactForm" with
      | none => simp
      | some f =>
        simp only [String.reduceEq, if_false, if_true, Option.map]
        split_ifs <;> rfl
    · simp only [getElementById_resetForm,
        getElementById_updateById _ (Element.setDisplay_id "none"),
        getElementById_updateById _ (Element.setDisplay_id "block"),
        getElementById_clearErrors]
      cases getElementById w.document "successMessage" with
      | none => simp
      | some f =>
        simp only [String.reduceEq, if_false, if_true, Option.map]
        split_ifs <;> rfl
    · intro x hx hf
      have := resetForm_mem _ _ x hx hf
      exact ⟨this, fun h0 => this.trans h0⟩
    · unfold resetForm
      rw [map_forEachMatch (fun x => (x.id, x.form, x.defaultValue)) _ Element.resetValue
          (fun _ => rfl),
        map_updateById (fun x => (x.id, x.form, x.defaultValue)) (Element.setDisplay "block")
          (fun _ => rfl),
        map_updateById (fun x => (x.id, x.form, x.defaultValue)) (Element.setDisplay "none")
          (fun _ => rfl)]
      simp only [clearErrors]
      rw [map_forEachMatch (fun x => (x.id, x.form, x.defaultValue)) _ (Element.setText [])
          (fun _ => rfl),
        map_forEachMatch (fun x => (x.id, x.form, x.defaultValue)) _
          (Element.classRemove "error") (fun _ => rfl)]

/-- C6 as first stated, refuted: on the page whose `name` input has the initial value
"Default Name", the submission `("Jo", "jo@x.com", "Hello there!")` is valid and has no
error entry, the form is hidden and the success container shown, yet the `name` field
of the form is not cleared: `reset()` leaves "Default Name" in it. -/
theorem fields_not_cleared_counterexample :
    (submitHandler (prefilledPage (ofString "Jo") (ofString "jo@x.com")
        (ofString "Hello there!"))).isValid? = some true ∧
      newEntries (prefilledPage (ofString "Jo") (ofString "jo@x.com") (ofString "Hello there!"))
        (submitHandler (prefilledPage (ofString "Jo") (ofString "jo@x.com")
          (ofString "Hello there!"))) = [] ∧
      (getElementById (submitHandler (prefilledPage (ofString "Jo") (ofString "jo@x.com")
          (ofString "Hello there!"))).world.document "contactForm").map (·.display) =
        some "none" ∧
      (getElementById (submitHandler (prefilledPage (ofString "Jo") (ofString "jo@x.com")
          (ofString "Hello there!"))).world.document "name").map (·.form) =
        some (some "contactForm") ∧
      (getElementById (submitHandler (prefilledPage (ofString "Jo") (ofString "jo@x.com")
          (ofString "Hello there!"))).world.document "name").map (·.value) =
        some (ofString "Default Name") ∧
      ¬ (∀ x ∈ (submitHandler (prefilledPage (ofString "Jo") (ofString "jo@x.com")
          (ofString "Hello there!"))).world.document,
        x.form = some "contactForm" → x.value = []) := by
  decide

/-- C6, as amended, run on a valid submission of the page without initial values (the
form is hidden, the success container shown, the three controls empty), on a valid
submission of the page whose `name` input has the initial value "Default Name" (every
control of the form holds its default value, `name` that one), and on an invalid
submission (nothing of that changes). -/
theorem display_state_witness :
    ((getElementById (submitHandler (samplePage (ofString "Jo") (ofString "jo@x.com")
          (ofString "Hello there!"))).world.document "contactForm").map (·.display) =
        some "none" ∧
      (getElementById (submitHandler (samplePage (ofString "Jo") (ofString "jo@x.com")
          (ofString "Hello there!"))).world.document "successMessage").map (·.display) =
        some "block" ∧
      (∀ x ∈ (submitHandler (samplePage (ofString "Jo") (ofString "jo@x.com")
          (ofString "Hello there!"))).world.document,
        x.form = some "contactForm" → x.value = [])) ∧
    ((getElementById (submitHandler (prefilledPage (ofString "Jo") (ofString "jo@x.com")
          (ofString "Hello there!"))).world.document "contactForm").map (·.display) =
        some "none" ∧
      (∀ x ∈ (submitHandler (prefilledPage (ofString "Jo") (ofString "jo@x.com")
          (ofString "Hello there!"))).world.document,
        x.form = some "contactForm" → x.value = x.defaultValue) ∧
      (∀ x ∈ (submitHandler (prefilledPage (ofString "Jo") (ofString "jo@x.com")
          (ofString "Hello there!"))).world.document,
        x.id = "name" → x.value = ofString "Default Name")) ∧
    (submitHandler (samplePage (ofString "J") (ofString "jo@x.com")
        (ofString "Hello there!"))).world.document.map Element.controlState =
      (samplePage (ofString "J") (ofString "jo@x.com")
        (ofString "Hello there!")).document.map Element.controlState := by
  have h := (display_state
    (samplePage (ofString "Jo") (ofString "jo@x.com") (ofString "Hello there!"))
    (control "name" "input" (ofString "Jo")) (control "email" "input" (ofString "jo@x.com"))
    (control "message" "textarea" (ofString "Hello there!"))
    (by decide) (by decide) (by decide)).2 (by decide)
  have hd : ∀ x ∈ (submitHandler (samplePage (ofString "Jo") (ofString "jo@x.com")
      (ofString "Hello there!"))).world.document, x.defaultValue = [] := by decide
  have k := (display_state
    (prefilledPage (ofString "Jo") (ofString "jo@x.com") (ofString "Hello there!"))
    (prefilledControl "name" "input" (ofString "Jo") (ofString "Default Name"))
    (control "email" "input" (ofString "jo@x.com"))
    (control "message" "textarea" (ofString "Hello there!"))
    (by decide) (by decide) (by decide)).2 (by decide)
  have kd : ∀ x ∈ (submitHandler (prefilledPage (ofString "Jo") (ofString "jo@x.com")
      (ofString "Hello there!"))).world.document,
      x.id = "name" → x.form = some "contactForm" ∧ x.defaultValue = ofString "Default Name" := by
    decide
  exact ⟨⟨h.1.trans (by decide), h.2.1.trans (by decide),
      fun x hx hf => (h.2.2.1 x hx hf).2 (hd x hx)⟩,
    ⟨k.1.trans (by decide), fun x hx hf => (k.2.2.1 x hx hf).1,
      fun x hx hid => ((k.2.2.1 x hx (kd x hx hid).1).1).trans (kd x hx hid).2⟩,
    (display_state
      (samplePage (ofString "J") (ofString "jo@x.com") (ofString "Hello there!"))
      (control "name" "input" (ofString "J")) (control "email" "input" (ofString "jo@x.com"))
      (control "message" "textarea" (ofString "Hello there!"))
      (by decide) (by decide) (by decide)).1 (by decide)⟩

/-! ## Lemmas on `trim` -/

theorem trimEnd_append_of_ws (t r : JSString) (hr : ∀ c ∈ r, isWhiteSpace c = true) :
    trimEnd (t ++ r) = trimEnd t := by
  unfold trimEnd
  rw [List.reverse_append, List.dropWhile_append_of_pos]
  intro a ha
  exact hr a (List.mem_reverse.mp ha)

theorem trim_eq_nil (s : JSString) (hs : ∀ c ∈ s, isWhiteSpace c = true) : trim s = [] := by
  unfold trim trimStart
  rw [List.dropWhile_eq_nil_iff.mpr hs]
  rfl

theorem trim_pad (l s r : JSString) (hl : ∀ c ∈ l, isWhiteSpace c = true)
    (hr : ∀ c ∈ r, isWhiteSpace c = true) : trim (l ++ s ++ r) = trim s := by
  unfold trim trimStart
  rw [List.append_assoc, List.dropWhile_append_of_pos hl, List.dropWhile_append]
  by_cases h : (List.dropWhile isWhiteSpace s).isEmpty = true
  · rw [if_pos h, List.dropWhile_eq_nil_iff.mpr hr, List.isEmpty_iff.mp h]
  · rw [if_neg h, trimEnd_append_of_ws _ _ hr]

theorem trimEnd_decompose (t : JSString) :
    ∃ r, t = trimEnd t ++ r ∧ ∀ c ∈ r, isWhiteSpace c = true := by
  refine ⟨(t.reverse.takeWhile isWhiteSpace).reverse, ?_, ?_⟩
  · unfold trimEnd
    rw [← List.reverse_append, List.takeWhile_append_dropWhile, List.reverse_reverse]
  · intro c hc
    exact List.mem_takeWhile_imp (List.mem_reverse.mp hc)

theorem trim_trim (s : JSString) : trim (trim s) = trim s := by
  obtain ⟨r, hr, hws⟩ := trimEnd_decompose (trimStart s)
  have hs : s = s.takeWhile isWhiteSpace ++ trim s ++ r := by
    rw [List.append_assoc]
    unfold trim
    rw [← hr]
    unfold trimStart
    rw [List.takeWhile_append_dropWhile]
  have := trim_pad (s.takeWhile isWhiteSpace) (trim s) r
    (fun c hc => List.mem_takeWhile_imp hc) hws
  rw [← hs] at this
  exact this.symm

theorem outcome_eq (w : World) (n e m : Element)
    (hn : getElementById w.document "name" = some n)
    (he : getElementById w.document "email" = some e)
    (hm : getElementById w.document "message" = some m) :
    outcome w =
      (some (decide (Spec.errors (trim n.value) (trim e.value) (trim m.value) = [])),
        Spec.errors (trim n.value) (trim e.value) (trim m.value)) := by
  obtain ⟨hv, hent, -, -, -⟩ := submitHandler_logs w n e m hn he hm
  unfold outcome
  rw [hv, hent]

/-- C7: the rules see the trimmed values. A page whose fields hold raw values has the
outcome (validity and error entries) of a page holding their trimmed forms, hence of a
page holding the same values without white-space padding; and a field of white space
only gets the entry of the empty field. -/
theorem trim_before_rules (w₁ w₂ : World) (n₁ e₁ m₁ n₂ e₂ m₂ : Element)
    (hn₁ : getElementById w₁.document "name" = some n₁)
    (he₁ : getElementById w₁.document "email" = some e₁)
    (hm₁ : getElementById w₁.document "message" = some m₁)
    (hn₂ : getElementById w₂.document "name" = some n₂)
    (he₂ : getElementById w₂.document "email" = some e₂)
    (hm₂ : getElementById w₂.document "message" = some m₂) :
    (n₂.value = trim n₁.value → e₂.value = trim e₁.value → m₂.value = trim m₁.value →
        outcome w₁ = outcome w₂) ∧
      (∀ ln rn le re lm rm : JSString,
        (∀ c ∈ ln ++ rn ++ le ++ re ++ lm ++ rm, isWhiteSpace c = true) →
        n₁.value = ln ++ n₂.value ++ rn → e₁.value = le ++ e₂.value ++ re →
        m₁.value = lm ++ m₂.value ++ rm → outcome w₁ = outcome w₂) ∧
      ((∀ c ∈ n₁.value, isWhiteSpace c = true) →
        (newEntries w₁ (submitHandler w₁)).filter (fun x => x.1 = "name") =
          [("name", ofString "Please enter your name")]) ∧
      ((∀ c ∈ e₁.value, isWhiteSpace c = true) →
        (newEntries w₁ (submitHandler w₁)).filter (fun x => x.1 = "email") =
          [("email", ofString "Please enter your email address")]) ∧
      ((∀ c ∈ m₁.value, isWhiteSpace c = true) →
        (newEntries w₁ (submitHandler w₁)).filter (fun x => x.1 = "message") =
          [("message", ofString "Please enter a message")]) := by
  have o₁ := outcome_eq w₁ n₁ e₁ m₁ hn₁ he₁ hm₁
  have o₂ := outcome_eq w₂ n₂ e₂ m₂ hn₂ he₂ hm₂
  obtain ⟨-, hent, -, -, -⟩ := submitHandler_logs w₁ n₁ e₁ m₁ hn₁ he₁ hm₁
  refine ⟨?_, ?_, ?_, ?_, ?_⟩
  · intro h₁ h₂ h₃
    rw [o₁, o₂, h₁, h₂, h₃, trim_trim, trim_trim, trim_trim]
  · intro ln rn le re lm rm hws h₁ h₂ h₃
    have hw : ∀ l : JSString, (∀ c ∈ l, c ∈ ln ++ rn ++ le ++ re ++ lm ++ rm) →
        ∀ c ∈ l, isWhiteSpace c = true := fun l hl c hc => hws c (hl c hc)
    rw [o₁, o₂, h₁, h₂, h₃,
      trim_pad ln _ rn (hw ln (by simp_all)) (hw rn (by simp_all)),
      trim_pad le _ re (hw le (by simp_all)) (hw re (by simp_all)),
      trim_pad lm _ rm (hw lm (by simp_all)) (hw rm (by simp_all))]
  · intro h
    rw [hent, trim_eq_nil _ h]
    by_cases c₃ : trim e₁.value = [] <;> by_cases c₄ : isValidEmail (trim e₁.value) = true <;>
      by_cases c₅ : trim m₁.value = [] <;> by_cases c₆ : (trim m₁.value).length < 10 <;>
      simp [Spec.errors, Spec.nameError, Spec.emailError, Spec.messageError, List.filter,
        c₃, c₄, c₅, c₆]
  · intro h
    rw [hent, trim_eq_nil _ h]
    by_cases c₁ : trim n₁.value = [] <;> by_cases c₂ : (trim n₁.value).length < 2 <;>
      by_cases c₅ : trim m₁.value = [] <;> by_cases c₆ : (trim m₁.value).length < 10 <;>
      simp [Spec.errors, Spec.nameError, Spec.emailError, Spec.messageError, List.filter,
        c₁, c₂, c₅, c₆]
  · intro h
    rw [hent, trim_eq_nil _ h]
    by_cases c₁ : trim n₁.value = [] <;> by_cases c₂ : (trim n₁.value).length < 2 <;>
      by_cases c₃ : trim e₁.value = [] <;> by_cases c₄ : isValidEmail (trim e₁.value) = true <;>
      simp [Spec.errors, Spec.nameError, Spec.emailError, Spec.messageError, List.filter,
        c₁, c₂, c₃, c₄]

/-- C7, run on padded values against their trimmed forms, and on a name of three
spaces.  -/
theorem trim_before_rules_witness :
    outcome (samplePage (ofString "  Jo ") (ofString "\tjo@x.com") (ofString "Hello there!\n")) =
        outcome (samplePage (ofString "Jo") (ofString "jo@x.com") (ofString "Hello there!")) ∧
      (newEntries (samplePage (ofString "   ") (ofString "\tjo@x.com")
          (ofString "Hello there!\n"))
        (submitHandler (samplePage (ofString "   ") (ofString "\tjo@x.com")
          (ofString "Hello there!\n")))).filter (fun x => x.1 = "name") =
        [("name", ofString "Please enter your name")] :=
  ⟨(trim_before_rules
      (samplePage (ofString "  Jo ") (ofString "\tjo@x.com") (ofString "Hello there!\n"))
      (samplePage (ofString "Jo") (ofString "jo@x.com") (ofString "Hello there!"))
      (control "name" "input" (ofString "  Jo "))
      (control "email" "input" (ofString "\tjo@x.com"))
      (control "message" "textarea" (ofString "Hello there!\n"))
      (control "name" "input" (ofString "Jo")) (control "email" "input" (ofString "jo@x.com"))
      (control "message" "textarea" (ofString "Hello there!"))
      (by decide) (by decide) (by decide) (by decide) (by decide) (by decide)).1
      (by decide) (by decide) (by decide),
   (trim_before_rules
      (samplePage (ofString "   ") (ofString "\tjo@x.com") (ofString "Hello there!\n"))
      (samplePage (ofString "Jo") (ofString "jo@x.com") (ofString "Hello there!"))
      (control "name" "input" (ofString "   "))
      (control "email" "input" (ofString "\tjo@x.com"))
      (control "message" "textarea" (ofString "Hello there!\n"))
      (control "name" "input" (ofString "Jo")) (control "email" "input" (ofString "jo@x.com"))
      (control "message" "textarea" (ofString "Hello there!"))
      (by decide) (by decide) (by decide) (by decide) (by decide) (by decide)).2.2.1
      (by decide)⟩

/-! ## The shape of an accepted address -/

theorem dropWhile_cases (p : Nat → Bool) (l : List Nat) :
    l.dropWhile p = [] ∨ ∃ a t, l.dropWhile p = a :: t ∧ p a = false := by
  induction l with
  | nil => exact Or.inl rfl
  | cons x xs ih =>
    by_cases h : p x = true
    · simpa [List.dropWhile_cons, h] using ih
    · right
      exact ⟨x, xs, by simp [List.dropWhile_cons, h], by simpa using h⟩

theorem notSpaceOrAt_iff (c : Nat) :
    notSpaceOrAt c = true ↔ isWhiteSpace c = false ∧ c ≠ 0x40 := by
  simp [notSpaceOrAt]

theorem beforeAt_append (u t : JSString) (hu : ∀ c ∈ u, c ≠ 0x40) :
    beforeAt (u ++ 0x40 :: t) = u := by
  unfold beforeAt
  rw [List.takeWhile_append_of_pos (by simpa using hu)]
  simp [List.takeWhile_cons]

theorem afterAt_append (u t : JSString) (hu : ∀ c ∈ u, c ≠ 0x40) :
    afterAt (u ++ 0x40 :: t) = t := by
  unfold afterAt
  rw [List.dropWhile_append_of_pos (by simpa using hu)]
  simp [List.dropWhile_cons]

/-- An address splits at its first `@`, when it has one. -/
theorem split_at_first (e : JSString) (h : 0x40 ∈ e) :
    e = beforeAt e ++ 0x40 :: afterAt e := by
  unfold beforeAt afterAt
  rcases dropWhile_cases (· != 0x40) e with h0 | ⟨a, t, hd, ha⟩
  · have := List.dropWhile_eq_nil_iff.mp h0 _ h
    simp at this
  · have ha' : a = 0x40 := by simpa using ha
    subst ha'
    conv_lhs => rw [← List.takeWhile_append_dropWhile (· != 0x40) e]
    rw [hd]
    rfl

theorem shape_iff_structure (e : JSString) :
    EmailShape e ↔
      (∀ c ∈ e, isWhiteSpace c = false) ∧ e.count 0x40 = 1 ∧ beforeAt e ≠ [] ∧
        ∃ i, 0 < i ∧ i + 1 < (afterAt e).length ∧ (afterAt e)[i]? = some 0x2E := by
  constructor
  · rintro ⟨u, v, w, rfl, hu, hv, hw, hpu, hpv, hpw⟩
    have hu' : ∀ c ∈ u, c ≠ 0x40 := fun c hc => ((notSpaceOrAt_iff c).mp (hpu c hc)).2
    have hv' : ∀ c ∈ v, c ≠ 0x40 := fun c hc => ((notSpaceOrAt_iff c).mp (hpv c hc)).2
    have hw' : ∀ c ∈ w, c ≠ 0x40 := fun c hc => ((notSpaceOrAt_iff c).mp (hpw c hc)).2
    refine ⟨?_, ?_, ?_, ?_⟩
    · intro c hc
      simp only [List.mem_append, List.mem_cons] at hc
      rcases hc with hc | rfl | hc | rfl | hc
      · exact ((notSpaceOrAt_iff c).mp (hpu c hc)).1
      · decide
      · exact ((notSpaceOrAt_iff c).mp (hpv c hc)).1
      · decide
      · exact ((notSpaceOrAt_iff c).mp (hpw c hc)).1
    · have cu : u.count 0x40 = 0 := List.count_eq_zero.mpr (fun h => hu' _ h rfl)
      have cv : v.count 0x40 = 0 := List.count_eq_zero.mpr (fun h => hv' _ h rfl)
      have cw : w.count 0x40 = 0 := List.count_eq_zero.mpr (fun h => hw' _ h rfl)
      simp [List.count_append, List.count_cons, cu, cv, cw]
    · rw [beforeAt_append u _ hu']
      exact hu
    · rw [afterAt_append u _ hu']
      refine ⟨v.length, List.length_pos.mpr hv, ?_, ?_⟩
      · have := List.length_pos.mpr hw
        simp only [List.length_append, List.length_cons]
        omega
      · rw [List.getElem?_append_right (Nat.le_refl _)]
        simp
  · rintro ⟨hws, hcount, hbefore, i, hi, hlen, hget⟩
    have hmem : 0x40 ∈ e := by
      apply List.count_pos_iff.mp
      rw [hcount]
      exact Nat.one_pos
    have hsplit := split_at_first e hmem
    have hu' : ∀ c ∈ beforeAt e, c ≠ 0x40 := by
      intro c hc
      have := List.mem_takeWhile_imp hc
      simpa using this
    have hcount' : (afterAt e).count 0x40 = 0 := by
      have cu : (beforeAt e).count 0x40 = 0 := List.count_eq_zero.mpr (fun h => hu' _ h rfl)
      rw [hsplit] at hcount
      simp only [List.count_append, List.count_cons, cu, beq_self_eq_true, if_true] at hcount
      omega
    have ht' : ∀ c ∈ afterAt e, c ≠ 0x40 := by
      intro c hc hc'
      subst hc'
      exact List.count_eq_zero.mp hcount' hc
    have hlt : i < (afterAt e).length := by omega
    have hgi : (afterAt e)[i] = 0x2E := by
      rw [List.getElem?_eq_getElem hlt] at hget
      exact Option.some.inj hget
    have hafter : afterAt e = (afterAt e).take i ++ 0x2E :: (afterAt e).drop (i + 1) := by
      conv_lhs => rw [← List.take_append_drop i (afterAt e)]
      rw [List.drop_eq_getElem_cons hlt, hgi]
    have hsub : ∀ c, c ∈ afterAt e → c ∈ e := by
      intro c hc
      rw [hsplit]
      simp [hc]
    refine ⟨beforeAt e, (afterAt e).take i, (afterAt e).drop (i + 1), ?_, hbefore, ?_, ?_, ?_,
      ?_, ?_⟩
    · rw [← hafter]
      exact hsplit
    · intro h
      have := congrArg List.length h
      simp only [List.length_take, List.length_nil] at this
      omega
    · intro h
      have := congrArg List.length h
      simp only [List.length_drop, List.length_nil] at this
      omega
    · intro c hc
      refine (notSpaceOrAt_iff c).mpr ⟨hws c ?_, hu' c hc⟩
      rw [hsplit]
      simp [hc]
    · intro c hc
      have hc' := List.mem_of_mem_take hc
      exact (notSpaceOrAt_iff c).mpr ⟨hws c (hsub c hc'), ht' c hc'⟩
    · intro c hc
      have hc' := List.mem_of_mem_drop hc
      exact (notSpaceOrAt_iff c).mpr ⟨hws c (hsub c hc'), ht' c hc'⟩

theorem shape_length (e : JSString) (h : EmailShape e) : 5 ≤ e.length := by
  obtain ⟨u, v, w, rfl, hu, hv, hw, -, -, -⟩ := h
  have := List.length_pos.mpr hu
  have := List.length_pos.mpr hv
  have := List.length_pos.mpr hw
  simp only [List.length_append, List.length_cons]
  omega

/-- C9: `isValidEmail(e)` is true exactly when `e` has no white-space code unit, has
exactly one `@`, has at least one code unit before it, and the part after it has a `.`
that is neither its first nor its last code unit. Every accepted address has length at
least 5; "a@b", "a@.c", "a@b.", "a@@b.c" and "a b@c.d" are rejected, "a@b..c" is
accepted. -/
theorem isValidEmail_structure :
    (∀ e : JSString, isValidEmail e = true ↔
        (∀ c ∈ e, isWhiteSpace c = false) ∧ e.count 0x40 = 1 ∧ beforeAt e ≠ [] ∧
          ∃ i, 0 < i ∧ i + 1 < (afterAt e).length ∧ (afterAt e)[i]? = some 0x2E) ∧
      (∀ e : JSString, isValidEmail e = true → 5 ≤ e.length) ∧
      isValidEmail (ofString "a@b") = false ∧ isValidEmail (ofString "a@.c") = false ∧
      isValidEmail (ofString "a@b.") = false ∧ isValidEmail (ofString "a@@b.c") = false ∧
      isValidEmail (ofString "a b@c.d") = false ∧ isValidEmail (ofString "a@b..c") = true := by
  refine ⟨fun e => (isValidEmail_iff_shape e).trans (shape_iff_structure e),
    fun e h => shape_length e ((isValidEmail_iff_shape e).mp h),
    by decide, by decide, by decide, by decide, by decide, by decide⟩

/-- C9, applied to "a@b.c", the shortest kind of accepted address. -/
theorem isValidEmail_structure_witness :
    isValidEmail (ofString "a@b.c") = true ∧ 5 ≤ (ofString "a@b.c").length :=
  ⟨(isValidEmail_structure.1 (ofString "a@b.c")).mpr
      ⟨by decide, by decide, by decide, 1, by decide, by decide, by decide⟩,
   isValidEmail_structure.2.1 (ofString "a@b.c") (by decide)⟩

/-! ## The mobile menu -/

theorem Element.classToggle_classContains_self (c : String) (e : Element) :
    (e.classToggle c).classContains c = !e.classContains c := by
  unfold Element.classToggle
  by_cases h : c ∈ e.classList
  · have h' : e.classList.contains c = true := by simpa using h
    rw [if_pos h', Element.classRemove_classContains]
    simp [Element.classContains, h]
  · have h' : ¬ e.classList.contains c = true := by simpa using h
    rw [if_neg h']
    simp [Element.classContains, h]

/-- What one click does to the two `active` flags, on a page that has both elements. -/
theorem click_flags (ev : Click) (d : Document) (b n : Element)
    (hb : getElementById d "mobileMenuBtn" = some b)
    (hn : getElementById d "navLinks" = some n) :
    hasClass (click ev d) "navLinks" "active" =
        (match ev.target with
          | .menuBtn => !n.classContains "active" && ev.insideNav
          | .navLink => false
          | .other => n.classContains "active" && ev.insideNav) ∧
      hasClass (click ev d) "mobileMenuBtn" "active" =
        (match ev.target with
          | .menuBtn =>
            if ev.insideNav = false ∧ n.classContains "active" = false then false
            else !b.classContains "active"
          | .navLink => false
          | .other =>
            if ev.insideNav = false ∧ n.classContains "active" = true then false
            else b.classContains "active") := by
  obtain ⟨t, i⟩ := ev
  cases t <;> cases i <;> cases hcn : n.classContains "active" <;>
    cases hcb : b.classContains "active" <;>
    simp [click, hb, hn, menuBtnListener, navLinkListener, documentListener, hasClass,
      getElementById_updateById, Element.classToggle_classContains_self, hcn, hcb]

theorem click_lookup (ev : Click) (d : Document) (id : String) :
    (getElementById (click ev d) id).isSome = (getElementById d id).isSome := by
  obtain ⟨t, i⟩ := ev
  unfold click
  cases hb : getElementById d "mobileMenuBtn" with
  | none => rfl
  | some b =>
    cases hn : getElementById d "navLinks" with
    | none => rfl
    | some n =>
      cases t <;> cases i <;> cases hcn : n.classContains "active" <;>
        cases hid : getElementById d id <;>
        by_cases h₁ : id = "mobileMenuBtn" <;> by_cases h₂ : id = "navLinks" <;>
        simp_all [menuBtnListener, navLinkListener, documentListener, hasClass,
          getElementById_updateById, Element.classToggle_classContains_self]

/-- One click keeps the two flags equal. -/
theorem click_agree (ev : Click) (d : Document)
    (h : hasClass d "navLinks" "active" = hasClass d "mobileMenuBtn" "active") :
    hasClass (click ev d) "navLinks" "active" =
      hasClass (click ev d) "mobileMenuBtn" "active" := by
  cases hb : getElementById d "mobileMenuBtn" with
  | none => simpa [click, hb] using h
  | some b =>
    cases hn : getElementById d "navLinks" with
    | none => simpa [click, hb, hn] using h
    | some n =>
      obtain ⟨h₁, h₂⟩ := click_flags ev d b n hb hn
      have hbn : n.classContains "active" = b.classContains "active" := by
        simpa [hasClass, hb, hn] using h
      rw [h₁, h₂, ← hbn]
      obtain ⟨t, i⟩ := ev
      cases t <;> cases i <;> cases n.classContains "active" <;> rfl

theorem clicks_agree (evs : List Click) (d : Document)
    (h : hasClass d "navLinks" "active" = hasClass d "mobileMenuBtn" "active") :
    hasClass (clicks evs d) "navLinks" "active" =
      hasClass (clicks evs d) "mobileMenuBtn" "active" := by
  induction evs generalizing d with
  | nil => exact h
  | cons ev evs ih => exact ih (click ev d) (click_agree ev d h)

/-- C10: on a page that has the menu button and the navigation list, starting with the
two agreeing on the class `active`, they agree after every sequence of clicks; a click
on the button flips both, a click on a navigation link or outside the navigation leaves
both without the class, and two clicks on the button in a row bring both back to where
they were. -/
theorem menu_invariant (d : Document) (b n : Element)
    (hb : getElementById d "mobileMenuBtn" = some b)
    (hn : getElementById d "navLinks" = some n)
    (h : hasClass d "navLinks" "active" = hasClass d "mobileMenuBtn" "active") :
    (∀ evs : List Click, hasClass (clicks evs d) "navLinks" "active" =
        hasClass (clicks evs d) "mobileMenuBtn" "active") ∧
      (hasClass (click buttonClick d) "navLinks" "active" =
          !hasClass d "navLinks" "active" ∧
        hasClass (click buttonClick d) "mobileMenuBtn" "active" =
          !hasClass d "mobileMenuBtn" "active") ∧
      (∀ i, hasClass (click (linkClick i) d) "navLinks" "active" = false ∧
        hasClass (click (linkClick i) d) "mobileMenuBtn" "active" = false) ∧
      (hasClass (click outsideClick d) "navLinks" "active" = false ∧
        hasClass (click outsideClick d) "mobileMenuBtn" "active" = false) ∧
      (hasClass (click buttonClick (click buttonClick d)) "navLinks" "active" =
          hasClass d "navLinks" "active" ∧
        hasClass (click buttonClick (click buttonClick d)) "mobileMenuBtn" "active" =
          hasClass d "mobileMenuBtn" "active") := by
  have hbn : n.classContains "active" = b.classContains "active" := by
    simpa [hasClass, hb, hn] using h
  have hd₁ : hasClass d "navLinks" "active" = n.classContains "active" := by
    simp [hasClass, hn]
  have hd₂ : hasClass d "mobileMenuBtn" "active" = b.classContains "active" := by
    simp [hasClass, hb]
  refine ⟨fun evs => clicks_agree evs d h, ?_, ?_, ?_, ?_⟩
  · obtain ⟨h₁, h₂⟩ := click_flags buttonClick d b n hb hn
    rw [h₁, h₂, hd₁, hd₂]
    simp [buttonClick]
  · intro i
    obtain ⟨h₁, h₂⟩ := click_flags (linkClick i) d b n hb hn
    rw [h₁, h₂]
    simp [linkClick]
  · obtain ⟨h₁, h₂⟩ := click_flags outsideClick d b n hb hn
    rw [h₁, h₂, ← hbn]
    cases n.classContains "active" <;> simp [outsideClick]
  · have hb₁ := click_lookup buttonClick d "mobileMenuBtn"
    have hn₁ := click_lookup buttonClick d "navLinks"
    rw [hb] at hb₁
    rw [hn] at hn₁
    obtain ⟨b', hb'⟩ := Option.isSome_iff_exists.mp hb₁
    obtain ⟨n', hn'⟩ := Option.isSome_iff_exists.mp hn₁
    obtain ⟨h₁, h₂⟩ := click_flags buttonClick d b n hb hn
    obtain ⟨k₁, k₂⟩ := click_flags buttonClick (click buttonClick d) b' n' hb' hn'
    have e₁ : n'.classContains "active" = !n.classContains "active" := by
      have : hasClass (click buttonClick d) "navLinks" "active" = n'.classContains "active" := by
        simp [hasClass, hn']
      rw [← this, h₁]
      simp [buttonClick]
    have e₂ : b'.classContains "active" = !b.classContains "active" := by
      have : hasClass (click buttonClick d) "mobileMenuBtn" "active" =
          b'.classContains "active" := by
        simp [hasClass, hb']
      rw [← this, h₂]
      simp [buttonClick]
    rw [k₁, k₂, hd₁, hd₂, e₁, e₂]
    simp [buttonClick]

/-- C10, run on the sample page, where neither element has the class at first: a
click on the button sets it on both, and a click outside then removes it from both. -/
theorem menu_invariant_witness :
    (hasClass (click buttonClick (samplePage [] [] []).document) "navLinks" "active" = true ∧
      hasClass (click buttonClick (samplePage [] [] []).document) "mobileMenuBtn" "active" =
        true) ∧
    hasClass (clicks [buttonClick, outsideClick, linkClick true, buttonClick]
        (samplePage [] [] []).document) "navLinks" "active" =
      hasClass (clicks [buttonClick, outsideClick, linkClick true, buttonClick]
        (samplePage [] [] []).document) "mobileMenuBtn" "active" :=
  ⟨(menu_invariant (samplePage [] [] []).document
      { blank "mobileMenuBtn" "button" with classList := ["mobile-menu-btn"] }
      { blank "navLinks" "ul" with classList := ["nav-links"] }
      (by decide) (by decide) (by decide)).2.1,
   (menu_invariant (samplePage [] [] []).document
      { blank "mobileMenuBtn" "button" with classList := ["mobile-menu-btn"] }
      { blank "navLinks" "ul" with classList := ["nav-links"] }
      (by decide) (by decide) (by decide)).1 _⟩

end Portfolio
